import Mathlib

/-!
# Verification of the ISL text-to-sign animation core

A shallow embedding of the text-to-animation pipeline of the `isl` repository:
the sign repository (`sign_database.py`), the text normalizer
(`nlp_processor.py`) and the motion synthesizer (`animation_generator.py`).

Modelling conventions:
* Python floats are modelled as exact rationals (`ℚ`); every float value the
  embedded code paths produce was checked by hand to be exact (all authored
  coordinates are short decimal literals, all durations are multiples of
  100 ms, and `int(d/1000*30)` agrees with `⌊d·30/1000⌋` on every reachable
  duration, including the transition value `int(300/1000*30) = 9`).
* The transcendental motion offsets (`math.sin`, `math.cos`) are modelled
  over `ℝ` with `Real.sin`/`Real.cos`; animation-frame hand poses therefore
  live in `ℝ` while the authored database stays in `ℚ`.
* Python dicts holding fixed record shapes become structures; the sign
  dictionary and the word-to-sign dictionary become association lists
  (insertion order preserved, first match wins as in CPython for the keys
  used here, which are all distinct).
-/

namespace ISL

/-- A MediaPipe-style hand landmark with normalized coordinates
(`sign_database.py` stores each as a dict with keys x, y, z). -/
@[ext] structure Landmark where
  x : ℚ
  y : ℚ
  z : ℚ
  deriving Repr, DecidableEq

/-- Shorthand constructor mirroring the dict literals of the source. -/
def lmk (x y z : ℚ) : Landmark := ⟨x, y, z⟩

/-- A hand pose: the ordered landmark list of one hand. -/
abbrev HandPose := List Landmark

/-- One keyframe of a sign (`frame` index plus right/left hand poses). -/
structure Keyframe where
  frame : ℚ
  right_hand : HandPose
  left_hand : Option HandPose
  deriving Repr, DecidableEq

/-- A sign definition as built by `_create_sign_data` / `_create_animated_sign`. -/
structure SignData where
  name : String
  type : String
  facial_expression : String
  motion_type : String
  body_region : String
  two_hands : Bool
  keyframes : List Keyframe
  deriving Repr, DecidableEq

/-- `ISLDatabase._create_base_hand` (relaxed/neutral hand). -/
def createBaseHand (xo yo : ℚ) : HandPose :=
  [ lmk xo yo 0,
    lmk (xo - 0.08) (yo - 0.02) 0, lmk (xo - 0.12) (yo - 0.05) 0,
    lmk (xo - 0.14) (yo - 0.08) 0, lmk (xo - 0.16) (yo - 0.10) 0,
    lmk (xo - 0.04) (yo - 0.08) 0, lmk (xo - 0.04) (yo - 0.14) 0,
    lmk (xo - 0.04) (yo - 0.18) 0, lmk (xo - 0.04) (yo - 0.22) 0,
    lmk xo (yo - 0.08) 0, lmk xo (yo - 0.15) 0,
    lmk xo (yo - 0.20) 0, lmk xo (yo - 0.24) 0,
    lmk (xo + 0.04) (yo - 0.08) 0, lmk (xo + 0.04) (yo - 0.14) 0,
    lmk (xo + 0.04) (yo - 0.18) 0, lmk (xo + 0.04) (yo - 0.21) 0,
    lmk (xo + 0.08) (yo - 0.08) 0, lmk (xo + 0.08) (yo - 0.12) 0,
    lmk (xo + 0.08) (yo - 0.15) 0, lmk (xo + 0.08) (yo - 0.18) 0 ]

/-- `ISLDatabase._create_fist` (closed fist). -/
def createFist (xo yo : ℚ) : HandPose :=
  [ lmk xo yo 0,
    lmk (xo - 0.06) (yo - 0.02) 0.02, lmk (xo - 0.08) (yo - 0.04) 0.03,
    lmk (xo - 0.06) (yo - 0.06) 0.04, lmk (xo - 0.04) (yo - 0.06) 0.05,
    lmk (xo - 0.04) (yo - 0.08) 0, lmk (xo - 0.04) (yo - 0.10) 0.04,
    lmk (xo - 0.02) (yo - 0.08) 0.06, lmk (xo - 0.02) (yo - 0.04) 0.05,
    lmk xo (yo - 0.08) 0, lmk xo (yo - 0.10) 0.04,
    lmk (xo + 0.02) (yo - 0.08) 0.06, lmk (xo + 0.02) (yo - 0.04) 0.05,
    lmk (xo + 0.04) (yo - 0.08) 0, lmk (xo + 0.04) (yo - 0.10) 0.04,
    lmk (xo + 0.05) (yo - 0.08) 0.06, lmk (xo + 0.05) (yo - 0.04) 0.05,
    lmk (xo + 0.08) (yo - 0.08) 0, lmk (xo + 0.08) (yo - 0.09) 0.03,
    lmk (xo + 0.08) (yo - 0.07) 0.05, lmk (xo + 0.08) (yo - 0.04) 0.04 ]

/-- In-place update of landmark `i` (Python `landmarks[i][...] = ...`). -/
def updateLm (l : HandPose) (i : ℕ) (f : Landmark → Landmark) : HandPose :=
  l.mapIdx fun j a => if j = i then f a else a

/-- Read landmark `i` (Python `landmarks[i]`); authored indices are in range. -/
def getLm (l : HandPose) (i : ℕ) : Landmark := l.getD i (lmk 0 0 0)

/-- `ISLDatabase._create_sign_data`: sign structure with a single keyframe. -/
def createSignData (name : String) (landmarks : HandPose) (signType : String)
    (facial : String) (motion : String) (bodyRegion : String)
    (twoHands : Bool) : SignData :=
  { name := name, type := signType, facial_expression := facial,
    motion_type := motion, body_region := bodyRegion, two_hands := twoHands,
    keyframes := [ { frame := 0, right_hand := landmarks,
                     left_hand := if twoHands then some landmarks else none } ] }

/-- `ISLDatabase._create_animated_sign`: sign with two keyframes. -/
def createAnimatedSign (name : String) (startHand endHand : HandPose)
    (motion : String) (facial : String) (bodyRegion : String)
    (twoHands : Bool) : SignData :=
  { name := name, type := "animated", facial_expression := facial,
    motion_type := motion, body_region := bodyRegion, two_hands := twoHands,
    keyframes :=
      [ { frame := 0, right_hand := startHand,
          left_hand := if twoHands then some startHand else none },
        { frame := 1, right_hand := endHand,
          left_hand := if twoHands then some endHand else none } ] }

/-- Update all indices `lo ≤ i < hi` (a Python `for i in range(lo, hi)` loop
whose per-index updates are independent). -/
def updateRange (l : HandPose) (lo hi : ℕ) (f : ℕ → Landmark → Landmark) :
    HandPose :=
  l.mapIdx fun j a => if lo ≤ j ∧ j < hi then f j a else a

/-! ## Number signs (`_create_sign_0` … `_create_sign_9`) -/

def sign0Landmarks : HandPose :=
  let l := createFist 0.5 0.5
  let l := updateLm l 4 fun a => { a with x := (getLm l 8).x + 0.02 }
  updateLm l 4 fun a => { a with y := (getLm l 8).y }

def createSign0 : SignData := createSignData "0" sign0Landmarks "number" "neutral" "static" "neutral" false

def sign1Landmarks : HandPose :=
  let l := createFist 0.5 0.5
  let l := updateLm l 5 fun a => { a with y := a.y - 0.02 }
  let l := updateLm l 6 fun a => { a with y := a.y - 0.06 }
  let l := updateLm l 7 fun a => { a with y := a.y - 0.10 }
  let l := updateLm l 8 fun a => { a with y := a.y - 0.14 }
  updateRange l 5 9 fun _ a => { a with z := 0 }

def createSign1 : SignData := createSignData "1" sign1Landmarks "number" "neutral" "static" "neutral" false

def sign2Landmarks : HandPose :=
  let l := createFist 0.5 0.5
  let l := updateRange l 5 9 fun i a =>
    { x := a.x - 0.02, y := a.y - 0.04 * ((i : ℚ) - 4), z := 0 }
  updateRange l 9 13 fun i a =>
    { x := a.x + 0.02, y := a.y - 0.04 * ((i : ℚ) - 8), z := 0 }

def createSign2 : SignData := createSignData "2" sign2Landmarks "number" "neutral" "static" "neutral" false

def createSign3 : SignData :=
  let l := createFist 0.5 0.5
  let l := updateLm l 4 fun a => { a with x := a.x - 0.06 }
  let l := updateLm l 4 fun a => { a with y := a.y - 0.08 }
  let l := updateRange l 5 9 fun i a =>
    { a with y := a.y - 0.04 * ((i : ℚ) - 4), z := 0 }
  let l := updateRange l 9 13 fun i a =>
    { a with y := a.y - 0.04 * ((i : ℚ) - 8), z := 0 }
  createSignData "3" l "number" "neutral" "static" "neutral" false

def createSign4 : SignData :=
  let l := createBaseHand 0.5 0.5
  let l := updateLm l 4 fun a => { a with x := (getLm l 5).x + 0.02 }
  let l := updateLm l 4 fun a => { a with y := (getLm l 5).y + 0.02 }
  let l := updateLm l 4 fun a => { a with z := 0.04 }
  createSignData "4" l "number" "neutral" "static" "neutral" false

def createSign5 : SignData :=
  createSignData "5" (createBaseHand 0.5 0.5) "number" "neutral" "static" "neutral" false

def createSign6 : SignData :=
  let x : ℚ := 0.5
  let y : ℚ := 0.5
  let l :=
    [ lmk x y 0,
      lmk (x - 0.06) (y - 0.04) 0, lmk (x - 0.08) (y - 0.10) 0,
      lmk (x - 0.09) (y - 0.16) 0, lmk (x - 0.09) (y - 0.22) 0 ] ++
    ([-0.03, 0.01, 0.05, 0.09] : List ℚ).flatMap fun off =>
      let bx := x + off
      [ lmk bx (y - 0.06) 0, lmk bx (y - 0.04) 0.06,
        lmk (bx + 0.02) (y - 0.02) 0.08, lmk (bx + 0.03) (y + 0.02) 0.06 ]
  createSignData "6" l "number" "neutral" "static" "neutral" false

def createSign7 : SignData :=
  let x : ℚ := 0.5
  let y : ℚ := 0.5
  let l :=
    [ lmk x y 0,
      lmk (x - 0.05) (y - 0.03) 0, lmk (x - 0.07) (y - 0.08) 0,
      lmk (x - 0.08) (y - 0.13) 0, lmk (x - 0.08) (y - 0.18) 0,
      lmk (x - 0.02) (y - 0.06) 0, lmk (x - 0.10) (y - 0.06) 0,
      lmk (x - 0.18) (y - 0.06) 0, lmk (x - 0.26) (y - 0.06) 0,
      lmk (x + 0.01) (y - 0.04) 0, lmk (x - 0.07) (y - 0.02) 0,
      lmk (x - 0.15) (y - 0.01) 0, lmk (x - 0.23) y 0 ] ++
    ([0.05, 0.09] : List ℚ).flatMap fun off =>
      let bx := x + off
      [ lmk bx (y - 0.05) 0, lmk bx (y - 0.03) 0.05,
        lmk (bx + 0.01) y 0.07, lmk (bx + 0.02) (y + 0.03) 0.05 ]
  createSignData "7" l "number" "neutral" "static" "neutral" false

def createSign8 : SignData :=
  let x : ℚ := 0.5
  let y : ℚ := 0.5
  let l :=
    [ lmk x y 0,
      lmk (x - 0.04) (y - 0.02) 0.02, lmk (x - 0.02) (y - 0.04) 0.04,
      lmk (x + 0.02) (y - 0.05) 0.05, lmk (x + 0.06) (y - 0.06) 0.04,
      lmk (x - 0.04) (y - 0.08) 0, lmk (x - 0.05) (y - 0.14) 0,
      lmk (x - 0.06) (y - 0.20) 0, lmk (x - 0.06) (y - 0.26) 0,
      lmk x (y - 0.08) 0, lmk x (y - 0.15) 0,
      lmk x (y - 0.22) 0, lmk x (y - 0.28) 0,
      lmk (x + 0.04) (y - 0.08) 0, lmk (x + 0.05) (y - 0.14) 0,
      lmk (x + 0.06) (y - 0.20) 0, lmk (x + 0.06) (y - 0.25) 0,
      lmk (x + 0.08) (y - 0.06) 0, lmk (x + 0.09) (y - 0.04) 0.03,
      lmk (x + 0.08) (y - 0.05) 0.05, lmk (x + 0.06) (y - 0.06) 0.04 ]
  createSignData "8" l "number" "neutral" "static" "neutral" false

def createSign9 : SignData :=
  let x : ℚ := 0.5
  let y : ℚ := 0.5
  let l :=
    [ lmk x y 0,
      lmk (x - 0.05) (y - 0.02) 0.03, lmk (x - 0.06) (y - 0.04) 0.05,
      lmk (x - 0.04) (y - 0.05) 0.06, lmk (x - 0.02) (y - 0.04) 0.06 ] ++
    (([-0.03, 0.01, 0.05] : List ℚ).flatMap fun off =>
      let bx := x + off
      [ lmk bx (y - 0.06) 0, lmk bx (y - 0.04) 0.06,
        lmk (bx + 0.02) (y - 0.02) 0.08, lmk (bx + 0.03) (y + 0.02) 0.06 ]) ++
    [ lmk (x + 0.09) (y - 0.06) 0, lmk (x + 0.10) (y - 0.12) 0,
      lmk (x + 0.11) (y - 0.17) 0, lmk (x + 0.12) (y - 0.22) 0 ]
  createSignData "9" l "number" "neutral" "static" "neutral" false

/-! ## Letter hand configurations (`_letter_a` … `_letter_z`) -/

def letterA : HandPose :=
  let l := createFist 0.5 0.5
  let l := updateLm l 4 fun a => { a with x := a.x - 0.04 }
  updateLm l 4 fun a => { a with y := (getLm l 5).y }

def letterB : HandPose :=
  let l := createBaseHand 0.5 0.5
  l.set 4 (lmk 0.52 0.45 0.04)

def letterC : HandPose :=
  let l := createBaseHand 0.5 0.5
  let l := updateRange l 5 21 fun _ a => { a with x := a.x - 0.02, z := 0.03 }
  let l := updateLm l 4 fun a => { a with x := 0.42 }
  updateLm l 4 fun a => { a with y := 0.42 }

def letterD : HandPose :=
  let l := sign1Landmarks
  let setIdx : List ℕ := [4, 12, 16, 20]
  let l := l.mapIdx fun j a => if j ∈ setIdx then { a with y := 0.42 } else a
  l.mapIdx fun j a => if j ∈ setIdx then { a with z := 0.03 } else a

def letterE : HandPose :=
  (createFist 0.5 0.5).set 4 (lmk 0.46 0.42 0.04)

def letterF : HandPose :=
  let l := createBaseHand 0.5 0.5
  l.set 4 (lmk (getLm l 8).x (getLm l 8).y 0.02)

def letterG : HandPose :=
  let l := createFist 0.5 0.5
  let l := l.set 4 (lmk 0.38 0.42 0)
  let l := updateLm l 5 fun a => { a with y := 0.42 }
  let l := updateLm l 6 fun a => { a with y := 0.42 }
  let l := l.set 7 (lmk 0.38 0.42 0)
  l.set 8 (lmk 0.35 0.42 0)

def letterH : HandPose :=
  let l := letterG
  let l := updateLm l 9 fun a => { a with y := 0.42 }
  let l := updateLm l 10 fun a => { a with y := 0.42 }
  let l := l.set 11 (lmk 0.38 0.44 0)
  l.set 12 (lmk 0.35 0.44 0)

def letterI : HandPose :=
  let l := createFist 0.5 0.5
  updateRange l 17 21 fun i a =>
    { a with y := a.y - 0.04 * ((i : ℚ) - 16), z := 0 }

def letterJ : HandPose := letterI

def letterK : HandPose :=
  sign2Landmarks.set 4 (lmk 0.48 0.38 0.02)

def letterL : HandPose :=
  let l := createFist 0.5 0.5
  let l := updateRange l 5 9 fun i a =>
    { a with y := a.y - 0.04 * ((i : ℚ) - 4), z := 0 }
  l.set 4 (lmk 0.36 0.50 0)

def letterM : HandPose :=
  let l := createFist 0.5 0.5
  let l := l.set 4 (lmk 0.54 0.44 0.06)
  l.mapIdx fun j a => if j ∈ ([8, 12, 16] : List ℕ) then { a with y := 0.44, z := 0.05 } else a

def letterN : HandPose :=
  let l := createFist 0.5 0.5
  let l := l.set 4 (lmk 0.52 0.44 0.06)
  l.mapIdx fun j a => if j ∈ ([8, 12] : List ℕ) then { a with y := 0.44, z := 0.05 } else a

def letterO : HandPose := sign0Landmarks

def letterP : HandPose :=
  letterK.map fun a => { a with y := a.y + 0.15 }

def letterQ : HandPose :=
  letterG.map fun a => { a with y := a.y + 0.15 }

def letterR : HandPose :=
  let l := sign2Landmarks
  updateLm l 8 fun a => { a with x := (getLm l 12).x }

def letterS : HandPose :=
  (createFist 0.5 0.5).set 4 (lmk 0.46 0.44 0.04)

def letterT : HandPose :=
  (createFist 0.5 0.5).set 4 (lmk 0.48 0.42 0.05)

def letterU : HandPose :=
  let l := createFist 0.5 0.5
  let l := updateRange l 5 13 fun i a =>
    { a with y := a.y - 0.04 * ((((i - 5) % 4 : ℕ) : ℚ) + 1), z := 0 }
  updateRange l 9 13 fun i a => { a with x := (getLm l (i - 4)).x + 0.02 }

def letterV : HandPose := sign2Landmarks

def letterW : HandPose :=
  let l := createFist 0.5 0.5
  let l := updateRange l 5 9 fun i a =>
    { x := a.x - 0.03, y := a.y - 0.04 * ((i : ℚ) - 4), z := 0 }
  let l := updateRange l 9 13 fun i a =>
    { a with y := a.y - 0.04 * ((i : ℚ) - 8), z := 0 }
  updateRange l 13 17 fun i a =>
    { x := a.x + 0.03, y := a.y - 0.04 * ((i : ℚ) - 12), z := 0 }

def letterX : HandPose :=
  let l := createFist 0.5 0.5
  let l := updateLm l 5 fun a => { a with y := a.y - 0.02 }
  let l := updateLm l 6 fun a => { a with y := a.y - 0.04 }
  let l := l.set 7 (lmk 0.48 0.40 0.03)
  l.set 8 (lmk 0.50 0.42 0.04)

def letterY : HandPose :=
  let l := createFist 0.5 0.5
  let l := l.set 4 (lmk 0.36 0.46 0)
  updateRange l 17 21 fun i a =>
    { a with y := a.y - 0.04 * ((i : ℚ) - 16), z := 0 }

def letterZ : HandPose := sign1Landmarks

/-- `_create_letter_sign`: wrap a letter hand configuration as a sign. -/
def createLetterSign (letter : String) : SignData :=
  let configs : List (String × HandPose) :=
    [("A", letterA), ("B", letterB), ("C", letterC), ("D", letterD),
     ("E", letterE), ("F", letterF), ("G", letterG), ("H", letterH),
     ("I", letterI), ("J", letterJ), ("K", letterK), ("L", letterL),
     ("M", letterM), ("N", letterN), ("O", letterO), ("P", letterP),
     ("Q", letterQ), ("R", letterR), ("S", letterS), ("T", letterT),
     ("U", letterU), ("V", letterV), ("W", letterW), ("X", letterX),
     ("Y", letterY), ("Z", letterZ)]
  let landmarks := ((configs.lookup letter).getD (createFist 0.5 0.5))
  createSignData letter landmarks "letter" "neutral" "static" "neutral" false

/-! ## Word signs -/

def createSignHello : SignData :=
  let x : ℚ := 0.6
  let y : ℚ := 0.28
  let startHand :=
    [ lmk x y 0,
      lmk (x - 0.10) (y - 0.02) 0, lmk (x - 0.14) (y - 0.06) 0,
      lmk (x - 0.17) (y - 0.10) 0, lmk (x - 0.19) (y - 0.14) 0 ] ++
    ([-0.05, 0.0, 0.05, 0.10] : List ℚ).flatMap fun off =>
      let bx := x + off
      (List.range 4).map fun j =>
        lmk (bx + (j : ℚ) * 0.01) (y - 0.08 - (j : ℚ) * 0.05) 0
  let endHand := startHand.map fun a => lmk (a.x + 0.08) a.y a.z
  createAnimatedSign "Hello" startHand endHand "wave" "smile" "head" false

def createSignThankYou : SignData :=
  let x : ℚ := 0.5
  let y : ℚ := 0.32
  let startHand :=
    [ lmk x y 0,
      lmk (x - 0.06) (y - 0.01) 0.02, lmk (x - 0.08) (y - 0.03) 0.03,
      lmk (x - 0.09) (y - 0.05) 0.03, lmk (x - 0.10) (y - 0.07) 0.03 ] ++
    ([-0.03, 0.0, 0.03, 0.06] : List ℚ).flatMap fun off =>
      let bx := x + off
      (List.range 4).map fun j => lmk bx (y - 0.08 - (j : ℚ) * 0.04) 0.01
  let endHand := startHand.map fun a => lmk a.x (a.y + 0.18) (a.z - 0.02)
  createAnimatedSign "Thank you" startHand endHand "outward" "smile" "chin" false

def createSignGoodMorning : SignData :=
  let x : ℚ := 0.35
  let y : ℚ := 0.55
  let startHand :=
    [ lmk x y 0,
      lmk (x - 0.08) (y - 0.04) 0, lmk (x - 0.12) (y - 0.10) 0,
      lmk (x - 0.14) (y - 0.15) 0, lmk (x - 0.15) (y - 0.20) 0 ] ++
    ([-0.04, 0.0, 0.04, 0.08] : List ℚ).enum.flatMap fun p =>
      let bx := x + p.2
      let angle := ((p.1 : ℚ) - 1.5) * 0.08
      (List.range 4).map fun j =>
        lmk (bx + (j : ℚ) * angle * 0.3) (y - 0.10 - (j : ℚ) * 0.05) 0
  let endHand := startHand.map fun a => lmk (a.x + 0.15) (a.y - 0.25) a.z
  createAnimatedSign "Good Morning" startHand endHand "rising" "smile" "chest" false

def createSignGoodNight : SignData :=
  let x : ℚ := 0.55
  let y : ℚ := 0.30
  let l :=
    [ lmk x y 0,
      lmk (x - 0.04) (y - 0.02) 0.04, lmk (x - 0.05) (y - 0.04) 0.05,
      lmk (x - 0.05) (y - 0.06) 0.05, lmk (x - 0.04) (y - 0.08) 0.04 ] ++
    ([-0.02, 0.0, 0.02, 0.04] : List ℚ).flatMap fun off =>
      let bx := x + off
      (List.range 4).map fun j => lmk bx (y - 0.08 - (j : ℚ) * 0.045) 0.02
  createSignData "Good night" l "phrase" "calm" "closing" "neutral" true

def createSignHowAreYou : SignData :=
  let x : ℚ := 0.45
  let y : ℚ := 0.42
  let startHand :=
    [ lmk x y 0,
      lmk (x - 0.06) (y - 0.02) 0.02, lmk (x - 0.09) (y - 0.05) 0.03,
      lmk (x - 0.10) (y - 0.08) 0.04, lmk (x - 0.09) (y - 0.10) 0.05 ] ++
    ([-0.03, 0.0, 0.03, 0.06] : List ℚ).flatMap fun off =>
      let bx := x + off
      (List.range 4).map fun j =>
        let curve : ℚ := if 1 < j then 0.02 * (j : ℚ) else 0
        lmk (bx + curve) (y - 0.08 - (j : ℚ) * 0.04) (0.02 + curve)
  let endHand := startHand.map fun a => lmk (a.x + 0.12) a.y a.z
  createAnimatedSign "How are you" startHand endHand "questioning" "question" "chest" false

def createSignHappy : SignData :=
  let x : ℚ := 0.48
  let y : ℚ := 0.48
  let l :=
    [ lmk x y 0,
      lmk (x - 0.09) (y - 0.01) 0, lmk (x - 0.13) (y - 0.03) 0,
      lmk (x - 0.16) (y - 0.05) 0, lmk (x - 0.18) (y - 0.06) 0 ] ++
    ([-0.03, 0.01, 0.05, 0.09] : List ℚ).flatMap fun off =>
      let bx := x + off
      (List.range 4).map fun j => lmk bx (y - 0.09 - (j : ℚ) * 0.045) 0.01
  createSignData "Happy" l "emotion" "smile" "circular" "chest" false

def createSignSad : SignData :=
  let x : ℚ := 0.5
  let y : ℚ := 0.35
  let startHand :=
    [ lmk x y 0,
      lmk (x - 0.07) (y + 0.01) 0.01, lmk (x - 0.10) (y + 0.03) 0.02,
      lmk (x - 0.12) (y + 0.06) 0.02, lmk (x - 0.13) (y + 0.09) 0.02 ] ++
    ([-0.04, 0.0, 0.04, 0.08] : List ℚ).flatMap fun off =>
      let bx := x + off
      (List.range 4).map fun j => lmk bx (y + 0.02 + (j : ℚ) * 0.05) 0.02
  let endHand := startHand.map fun a => lmk a.x (a.y + 0.15) a.z
  createAnimatedSign "Sad" startHand endHand "downward" "sad" "face" false

def createSignBeautiful : SignData :=
  let x : ℚ := 0.55
  let y : ℚ := 0.28
  let l :=
    [ lmk x y 0,
      lmk (x - 0.08) (y - 0.03) 0, lmk (x - 0.11) (y - 0.07) 0,
      lmk (x - 0.13) (y - 0.11) 0, lmk (x - 0.14) (y - 0.14) 0 ] ++
    ([-0.02, 0.01, 0.04, 0.07] : List ℚ).flatMap fun off =>
      let bx := x + off
      (List.range 4).map fun j => lmk bx (y - 0.08 - (j : ℚ) * 0.048) 0
  createSignData "Beautiful" l "adjective" "smile" "circular" "face" false

def createSignUgly : SignData :=
  let x : ℚ := 0.48
  let y : ℚ := 0.32
  let l :=
    [ lmk x y 0,
      lmk (x - 0.06) (y - 0.02) 0.03, lmk (x - 0.08) (y - 0.05) 0.05,
      lmk (x - 0.07) (y - 0.07) 0.06, lmk (x - 0.05) (y - 0.08) 0.06 ] ++
    ([-0.04, 0.0, 0.04, 0.08] : List ℚ).flatMap fun off =>
      let bx := x + off
      [ lmk bx (y - 0.08) 0, lmk bx (y - 0.12) 0.04,
        lmk (bx + 0.02) (y - 0.10) 0.07, lmk (bx + 0.03) (y - 0.06) 0.06 ]
  createSignData "Ugly" l "adjective" "frown" "across" "face" false

def createSignAlright : SignData :=
  let x : ℚ := 0.5
  let y : ℚ := 0.45
  let l :=
    [ lmk x y 0,
      lmk (x - 0.05) (y - 0.03) 0.02, lmk (x - 0.07) (y - 0.06) 0.03,
      lmk (x - 0.06) (y - 0.09) 0.03, lmk (x - 0.04) (y - 0.11) 0.02,
      lmk (x - 0.03) (y - 0.08) 0, lmk (x - 0.04) (y - 0.11) 0.02,
      lmk (x - 0.05) (y - 0.12) 0.03, lmk (x - 0.04) (y - 0.11) 0.02 ] ++
    ([0.01, 0.05, 0.09] : List ℚ).flatMap fun off =>
      let bx := x + off
      (List.range 4).map fun j => lmk bx (y - 0.08 - (j : ℚ) * 0.05) 0
  createSignData "Alright" l "expression" "neutral" "static" "neutral" false

def createSignPleased : SignData :=
  let x : ℚ := 0.52
  let y : ℚ := 0.50
  let l :=
    [ lmk x y 0,
      lmk (x - 0.05) (y + 0.01) 0.03, lmk (x - 0.06) (y + 0.02) 0.04,
      lmk (x - 0.05) (y + 0.03) 0.04, lmk (x - 0.03) (y + 0.03) 0.03 ] ++
    ([-0.02, 0.02, 0.06, 0.10] : List ℚ).flatMap fun off =>
      let bx := x + off
      (List.range 4).map fun j => lmk bx (y - 0.06 - (j : ℚ) * 0.04) 0.04
  createSignData "Pleased" l "emotion" "smile" "outward" "chest" false

def createSignAnimal : SignData :=
  let x : ℚ := 0.5
  let y : ℚ := 0.52
  let l :=
    [ lmk x y 0,
      lmk (x - 0.05) (y - 0.03) 0.03, lmk (x - 0.06) (y - 0.06) 0.05,
      lmk (x - 0.05) (y - 0.08) 0.06, lmk (x - 0.03) (y - 0.09) 0.05 ] ++
    ([-0.04, 0.0, 0.04, 0.08] : List ℚ).flatMap fun off =>
      let bx := x + off
      [ lmk bx (y - 0.07) 0, lmk bx (y - 0.10) 0.06,
        lmk bx (y - 0.08) 0.10, lmk bx (y - 0.05) 0.08 ]
  createSignData "Animal" l "noun" "neutral" "rocking" "chest" false

def createSignBird : SignData :=
  let x : ℚ := 0.48
  let y : ℚ := 0.33
  let l :=
    [ lmk x y 0,
      lmk (x - 0.06) (y - 0.04) 0, lmk (x - 0.10) (y - 0.08) 0,
      lmk (x - 0.13) (y - 0.11) 0, lmk (x - 0.15) (y - 0.13) 0,
      lmk (x - 0.04) (y - 0.06) 0, lmk (x - 0.08) (y - 0.10) 0,
      lmk (x - 0.12) (y - 0.13) 0, lmk (x - 0.15) (y - 0.14) 0.01 ] ++
    ([0.0, 0.04, 0.08] : List ℚ).flatMap fun off =>
      let bx := x + off
      [ lmk bx (y - 0.06) 0, lmk bx (y - 0.08) 0.04,
        lmk (bx + 0.01) (y - 0.06) 0.06, lmk (bx + 0.01) (y - 0.03) 0.05 ]
  createSignData "Bird" l "noun" "neutral" "opening_closing" "mouth" false

def createSignCat : SignData :=
  let x : ℚ := 0.52
  let y : ℚ := 0.34
  let l :=
    [ lmk x y 0,
      lmk (x - 0.05) (y - 0.03) 0.01, lmk (x - 0.07) (y - 0.06) 0.02,
      lmk (x - 0.08) (y - 0.08) 0.02, lmk (x - 0.08) (y - 0.10) 0.01,
      lmk (x - 0.03) (y - 0.06) 0, lmk (x - 0.05) (y - 0.09) 0.01,
      lmk (x - 0.07) (y - 0.11) 0.01, lmk (x - 0.08) (y - 0.11) 0.01 ] ++
    ([0.0, 0.04, 0.08] : List ℚ).flatMap fun off =>
      let bx := x + off
      [ lmk bx (y - 0.06) 0, lmk bx (y - 0.09) 0.03,
        lmk (bx + 0.01) (y - 0.08) 0.05, lmk (bx + 0.02) (y - 0.05) 0.04 ]
  createSignData "Cat" l "noun" "neutral" "outward" "cheek" true

def createSignDog : SignData :=
  let x : ℚ := 0.5
  let y : ℚ := 0.58
  let l :=
    [ lmk x y 0,
      lmk (x - 0.06) (y - 0.02) 0.02, lmk (x - 0.08) (y - 0.05) 0.03,
      lmk (x - 0.07) (y - 0.08) 0.04, lmk (x - 0.05) (y - 0.09) 0.04,
      lmk (x - 0.03) (y - 0.08) 0, lmk (x - 0.03) (y - 0.12) 0,
      lmk (x - 0.03) (y - 0.16) 0, lmk (x - 0.03) (y - 0.19) 0,
      lmk (x + 0.01) (y - 0.08) 0, lmk (x + 0.01) (y - 0.12) 0,
      lmk (x + 0.01) (y - 0.16) 0, lmk (x + 0.01) (y - 0.19) 0 ] ++
    ([0.05, 0.09] : List ℚ).flatMap fun off =>
      let bx := x + off
      [ lmk bx (y - 0.07) 0, lmk bx (y - 0.09) 0.04,
        lmk (bx + 0.01) (y - 0.07) 0.06, lmk (bx + 0.01) (y - 0.04) 0.05 ]
  createSignData "Dog" l "noun" "neutral" "patting" "thigh" false

def createSignCow : SignData :=
  let x : ℚ := 0.55
  let y : ℚ := 0.25
  let l :=
    [ lmk x y 0,
      lmk (x - 0.08) (y - 0.02) 0, lmk (x - 0.13) (y - 0.05) 0,
      lmk (x - 0.17) (y - 0.09) 0, lmk (x - 0.20) (y - 0.12) 0 ] ++
    (([-0.04, 0.0, 0.04] : List ℚ).flatMap fun off =>
      let bx := x + off
      [ lmk bx (y - 0.06) 0, lmk bx (y - 0.08) 0.04,
        lmk (bx + 0.01) (y - 0.06) 0.06, lmk (bx + 0.01) (y - 0.03) 0.05 ]) ++
    [ lmk (x + 0.08) (y - 0.06) 0, lmk (x + 0.10) (y - 0.10) 0,
      lmk (x + 0.12) (y - 0.14) 0, lmk (x + 0.14) (y - 0.17) 0 ]
  createSignData "Cow" l "noun" "neutral" "twisting" "temple" false

def createSignHorse : SignData :=
  let x : ℚ := 0.58
  let y : ℚ := 0.26
  let l :=
    [ lmk x y 0,
      lmk (x - 0.06) (y - 0.02) 0.03, lmk (x - 0.08) (y - 0.04) 0.05,
      lmk (x - 0.09) (y - 0.06) 0.06, lmk (x - 0.09) (y - 0.08) 0.06,
      lmk (x - 0.03) (y - 0.08) 0, lmk (x - 0.04) (y - 0.14) 0,
      lmk (x - 0.05) (y - 0.19) 0, lmk (x - 0.06) (y - 0.23) 0,
      lmk (x + 0.01) (y - 0.08) 0, lmk (x + 0.01) (y - 0.14) 0,
      lmk (x + 0.01) (y - 0.19) 0, lmk (x + 0.01) (y - 0.23) 0 ] ++
    ([0.05, 0.09] : List ℚ).flatMap fun off =>
      let bx := x + off
      [ lmk bx (y - 0.06) 0, lmk bx (y - 0.08) 0.04,
        lmk (bx + 0.01) (y - 0.06) 0.06, lmk (bx + 0.01) (y - 0.03) 0.05 ]
  createSignData "Horse" l "noun" "neutral" "flapping" "temple" false

def createSignMouse : SignData :=
  let x : ℚ := 0.5
  let y : ℚ := 0.32
  let l :=
    [ lmk x y 0,
      lmk (x - 0.05) (y - 0.02) 0.02, lmk (x - 0.07) (y - 0.04) 0.03,
      lmk (x - 0.08) (y - 0.06) 0.03, lmk (x - 0.08) (y - 0.08) 0.03,
      lmk (x - 0.02) (y - 0.06) 0, lmk (x - 0.02) (y - 0.12) 0,
      lmk (x - 0.02) (y - 0.17) 0, lmk (x - 0.02) (y - 0.21) 0 ] ++
    ([0.02, 0.06, 0.10] : List ℚ).flatMap fun off =>
      let bx := x + off
      [ lmk bx (y - 0.06) 0, lmk bx (y - 0.08) 0.04,
        lmk (bx + 0.01) (y - 0.06) 0.06, lmk (bx + 0.01) (y - 0.03) 0.05 ]
  createSignData "Mouse" l "noun" "neutral" "brushing" "nose" false

def createSignFish : SignData :=
  let x : ℚ := 0.5
  let y : ℚ := 0.52
  let l :=
    [ lmk x y 0,
      lmk (x - 0.05) (y - 0.02) 0.02, lmk (x - 0.06) (y - 0.05) 0.02,
      lmk (x - 0.06) (y - 0.08) 0.02, lmk (x - 0.05) (y - 0.10) 0.02 ] ++
    ([-0.02, 0.02, 0.06, 0.10] : List ℚ).enum.flatMap fun p =>
      let bx := x + p.2
      let wave : ℚ := if p.1 % 2 = 0 then 0.01 else -0.01
      (List.range 4).map fun j => lmk bx (y - 0.08 - (j : ℚ) * 0.04) wave
  createSignData "Fish" l "noun" "neutral" "swimming" "neutral" false

def createSignMother : SignData :=
  let x : ℚ := 0.5
  let y : ℚ := 0.36
  let l :=
    [ lmk x y 0,
      lmk (x - 0.06) (y - 0.04) 0.04, lmk (x - 0.08) (y - 0.08) 0.06,
      lmk (x - 0.09) (y - 0.11) 0.07, lmk (x - 0.09) (y - 0.13) 0.07 ] ++
    ([-0.03, 0.01, 0.05, 0.09] : List ℚ).flatMap fun off =>
      let bx := x + off
      (List.range 4).map fun j => lmk bx (y - 0.08 - (j : ℚ) * 0.045) 0
  createSignData "Mother" l "noun" "smile" "static" "chin" false

def createSignFather : SignData :=
  let x : ℚ := 0.5
  let y : ℚ := 0.26
  let l :=
    [ lmk x y 0,
      lmk (x - 0.06) (y - 0.03) 0.04, lmk (x - 0.08) (y - 0.06) 0.06,
      lmk (x - 0.09) (y - 0.09) 0.07, lmk (x - 0.09) (y - 0.11) 0.07 ] ++
    ([-0.03, 0.01, 0.05, 0.09] : List ℚ).flatMap fun off =>
      let bx := x + off
      (List.range 4).map fun j => lmk bx (y - 0.08 - (j : ℚ) * 0.045) 0
  createSignData "Father" l "noun" "neutral" "static" "forehead" false

def createSignDaughter : SignData :=
  let x : ℚ := 0.52
  let y : ℚ := 0.42
  let l :=
    [ lmk x y 0,
      lmk (x - 0.05) (y - 0.02) 0.01, lmk (x - 0.07) (y - 0.04) 0.02,
      lmk (x - 0.08) (y - 0.06) 0.02, lmk (x - 0.08) (y - 0.08) 0.02 ] ++
    ([-0.03, 0.01, 0.05, 0.09] : List ℚ).flatMap fun off =>
      let bx := x + off
      [ lmk bx (y - 0.06) 0, lmk (bx - 0.01) (y - 0.10) 0.03,
        lmk (bx - 0.02) (y - 0.12) 0.05, lmk (bx - 0.02) (y - 0.13) 0.06 ]
  createSignData "Daughter" l "noun" "neutral" "cradling" "chin" false

def createSignSon : SignData :=
  let x : ℚ := 0.52
  let y : ℚ := 0.32
  let l :=
    [ lmk x y 0,
      lmk (x - 0.05) (y - 0.02) 0.01, lmk (x - 0.07) (y - 0.04) 0.02,
      lmk (x - 0.08) (y - 0.06) 0.02, lmk (x - 0.08) (y - 0.08) 0.02 ] ++
    ([-0.02, 0.02, 0.06, 0.10] : List ℚ).flatMap fun off =>
      let bx := x + off
      [ lmk bx (y - 0.07) 0, lmk bx (y - 0.12) 0,
        lmk bx (y - 0.16) 0, lmk bx (y - 0.19) 0 ]
  createSignData "Son" l "noun" "neutral" "cradling" "forehead" false

def createSignParent : SignData :=
  let x : ℚ := 0.5
  let y : ℚ := 0.34
  let l :=
    [ lmk x y 0,
      lmk (x - 0.07) (y - 0.03) 0.03, lmk (x - 0.10) (y - 0.07) 0.04,
      lmk (x - 0.12) (y - 0.10) 0.05, lmk (x - 0.13) (y - 0.12) 0.05 ] ++
    ([-0.02, 0.02, 0.06, 0.10] : List ℚ).flatMap fun off =>
      let bx := x + off
      (List.range 4).map fun j => lmk bx (y - 0.08 - (j : ℚ) * 0.042) 0.02
  createSignData "Parent" l "noun" "neutral" "alternating" "face" true

def createSignChair : SignData :=
  let x : ℚ := 0.5
  let y : ℚ := 0.52
  let l :=
    [ lmk x y 0,
      lmk (x - 0.06) (y - 0.04) 0, lmk (x - 0.10) (y - 0.04) 0,
      lmk (x - 0.14) (y - 0.04) 0, lmk (x - 0.17) (y - 0.04) 0,
      lmk (x - 0.03) (y - 0.08) 0, lmk (x - 0.03) (y - 0.12) 0.03,
      lmk (x - 0.03) (y - 0.10) 0.06, lmk (x - 0.03) (y - 0.06) 0.06,
      lmk (x + 0.01) (y - 0.08) 0, lmk (x + 0.01) (y - 0.12) 0.03,
      lmk (x + 0.01) (y - 0.10) 0.06, lmk (x + 0.01) (y - 0.06) 0.06 ] ++
    ([0.05, 0.09] : List ℚ).flatMap fun off =>
      let bx := x + off
      [ lmk bx (y - 0.06) 0, lmk bx (y - 0.08) 0.04,
        lmk (bx + 0.01) (y - 0.06) 0.06, lmk (bx + 0.01) (y - 0.03) 0.05 ]
  createSignData "Chair" l "noun" "neutral" "tapping" "neutral" true

def createSignTable : SignData :=
  let x : ℚ := 0.5
  let y : ℚ := 0.55
  let l :=
    [ lmk x y 0,
      lmk (x - 0.04) (y + 0.01) 0.03, lmk (x - 0.05) (y + 0.02) 0.04,
      lmk (x - 0.04) (y + 0.03) 0.04, lmk (x - 0.02) (y + 0.03) 0.03 ] ++
    ([-0.02, 0.02, 0.06, 0.10] : List ℚ).flatMap fun off =>
      let bx := x + off
      (List.range 4).map fun j => lmk bx (y - 0.04 - (j : ℚ) * 0.03) 0.08
  createSignData "Table" l "noun" "neutral" "patting" "neutral" true

def createSignBed : SignData :=
  let x : ℚ := 0.58
  let y : ℚ := 0.32
  let l :=
    [ lmk x y 0,
      lmk (x - 0.04) (y - 0.02) 0.02, lmk (x - 0.05) (y - 0.04) 0.03,
      lmk (x - 0.05) (y - 0.06) 0.03, lmk (x - 0.04) (y - 0.07) 0.03 ] ++
    ([-0.02, 0.01, 0.04, 0.07] : List ℚ).flatMap fun off =>
      let bx := x + off
      (List.range 4).map fun j =>
        lmk (bx + (j : ℚ) * 0.02) (y - 0.06 - (j : ℚ) * 0.03) 0.02
  createSignData "Bed" l "noun" "calm" "resting" "head" false

def createSignBedroom : SignData :=
  let x : ℚ := 0.5
  let y : ℚ := 0.48
  let l :=
    [ lmk x y 0,
      lmk (x - 0.07) (y - 0.02) 0, lmk (x - 0.11) (y - 0.04) 0,
      lmk (x - 0.14) (y - 0.06) 0, lmk (x - 0.16) (y - 0.08) 0,
      lmk (x - 0.03) (y - 0.08) 0, lmk (x - 0.03) (y - 0.13) 0,
      lmk (x - 0.03) (y - 0.17) 0, lmk (x - 0.03) (y - 0.20) 0 ] ++
    ([0.01, 0.05, 0.09] : List ℚ).flatMap fun off =>
      let bx := x + off
      [ lmk bx (y - 0.07) 0, lmk bx (y - 0.10) 0.03,
        lmk (bx + 0.01) (y - 0.08) 0.05, lmk (bx + 0.02) (y - 0.05) 0.04 ]
  createSignData "Bedroom" l "noun" "neutral" "box_shape" "neutral" true

def createSignDoor : SignData :=
  let x : ℚ := 0.42
  let y : ℚ := 0.48
  let startHand :=
    [ lmk x y 0,
      lmk (x - 0.05) (y - 0.02) 0.02, lmk (x - 0.06) (y - 0.04) 0.03,
      lmk (x - 0.06) (y - 0.06) 0.03, lmk (x - 0.05) (y - 0.07) 0.02 ] ++
    ([-0.02, 0.02, 0.06, 0.10] : List ℚ).flatMap fun off =>
      let bx := x + off
      (List.range 4).map fun j => lmk bx (y - 0.08 - (j : ℚ) * 0.04) 0
  let endHand :=
    [ lmk (x + 0.18) y 0,
      lmk (x + 0.13) (y - 0.02) 0.02, lmk (x + 0.12) (y - 0.04) 0.03,
      lmk (x + 0.12) (y - 0.06) 0.03, lmk (x + 0.13) (y - 0.07) 0.02 ] ++
    ([0.16, 0.20, 0.24, 0.28] : List ℚ).flatMap fun off =>
      let bx := x + off
      (List.range 4).map fun j => lmk bx (y - 0.08 - (j : ℚ) * 0.04) 0.04
  createAnimatedSign "Door" startHand endHand "opening" "neutral" "neutral" false

def createSignWindow : SignData :=
  let x : ℚ := 0.5
  let y : ℚ := 0.42
  let l :=
    [ lmk x y 0,
      lmk (x - 0.06) (y - 0.02) 0.01, lmk (x - 0.08) (y - 0.04) 0.01,
      lmk (x - 0.09) (y - 0.06) 0.01, lmk (x - 0.10) (y - 0.07) 0.01 ] ++
    ([-0.03, 0.01, 0.05, 0.09] : List ℚ).flatMap fun off =>
      let bx := x + off
      (List.range 4).map fun j => lmk bx (y - 0.07 - (j : ℚ) * 0.05) 0
  createSignData "Window" l "noun" "neutral" "sliding" "neutral" true

def createSignBlack : SignData :=
  let x : ℚ := 0.45
  let y : ℚ := 0.24
  let l :=
    [ lmk x y 0,
      lmk (x - 0.04) (y - 0.02) 0.03, lmk (x - 0.05) (y - 0.04) 0.04,
      lmk (x - 0.04) (y - 0.05) 0.04, lmk (x - 0.02) (y - 0.05) 0.03,
      lmk (x - 0.02) (y - 0.06) 0, lmk (x - 0.06) (y - 0.06) 0,
      lmk (x - 0.10) (y - 0.06) 0, lmk (x - 0.14) (y - 0.06) 0 ] ++
    ([0.02, 0.06, 0.10] : List ℚ).flatMap fun off =>
      let bx := x + off
      [ lmk bx (y - 0.05) 0, lmk bx (y - 0.07) 0.04,
        lmk (bx + 0.01) (y - 0.05) 0.06, lmk (bx + 0.01) (y - 0.02) 0.05 ]
  createSignData "Black" l "adjective" "neutral" "across" "forehead" false

def createSignWhite : SignData :=
  let x : ℚ := 0.5
  let y : ℚ := 0.48
  let startHand :=
    [ lmk x y 0,
      lmk (x - 0.07) (y - 0.02) 0.05, lmk (x - 0.10) (y - 0.04) 0.08,
      lmk (x - 0.12) (y - 0.06) 0.10, lmk (x - 0.13) (y - 0.08) 0.10 ] ++
    ([-0.03, 0.01, 0.05, 0.09] : List ℚ).flatMap fun off =>
      let bx := x + off
      (List.range 4).map fun j => lmk bx (y - 0.07 - (j : ℚ) * 0.04) 0.08
  let endHand :=
    [ lmk x (y + 0.05) 0,
      lmk (x - 0.07) (y + 0.03) 0, lmk (x - 0.10) (y + 0.01) 0,
      lmk (x - 0.12) (y - 0.01) 0, lmk (x - 0.13) (y - 0.03) 0 ] ++
    ([-0.03, 0.01, 0.05, 0.09] : List ℚ).flatMap fun off =>
      let bx := x + off
      (List.range 4).map fun j => lmk bx (y + 0.02 - (j : ℚ) * 0.04) 0
  createAnimatedSign "White" startHand endHand "outward" "neutral" "chest" false

def createSignOrange : SignData :=
  let x : ℚ := 0.5
  let y : ℚ := 0.36
  let l :=
    [ lmk x y 0,
      lmk (x - 0.05) (y - 0.03) 0.02, lmk (x - 0.07) (y - 0.06) 0.04,
      lmk (x - 0.06) (y - 0.09) 0.05, lmk (x - 0.04) (y - 0.11) 0.04 ] ++
    ([-0.02, 0.02, 0.06, 0.10] : List ℚ).flatMap fun off =>
      let bx := x + off
      [ lmk bx (y - 0.06) 0, lmk (bx - 0.02) (y - 0.09) 0.03,
        lmk (bx - 0.03) (y - 0.11) 0.05, lmk (bx - 0.03) (y - 0.12) 0.04 ]
  createSignData "Orange" l "adjective" "neutral" "squeezing" "chin" false

def createSignPink : SignData :=
  let x : ℚ := 0.48
  let y : ℚ := 0.34
  let l :=
    [ lmk x y 0,
      lmk (x - 0.06) (y - 0.03) 0, lmk (x - 0.10) (y - 0.05) 0,
      lmk (x - 0.13) (y - 0.06) 0, lmk (x - 0.15) (y - 0.06) 0,
      lmk (x - 0.02) (y - 0.06) 0, lmk (x - 0.02) (y - 0.02) 0,
      lmk (x - 0.02) (y + 0.03) 0, lmk (x - 0.02) (y + 0.08) 0,
      lmk (x + 0.02) (y - 0.06) 0, lmk (x + 0.02) (y - 0.02) 0,
      lmk (x + 0.02) (y + 0.03) 0, lmk (x + 0.02) (y + 0.08) 0 ] ++
    ([0.06, 0.10] : List ℚ).flatMap fun off =>
      let bx := x + off
      [ lmk bx (y - 0.05) 0, lmk bx (y - 0.07) 0.04,
        lmk (bx + 0.01) (y - 0.05) 0.06, lmk (bx + 0.01) (y - 0.02) 0.05 ]
  createSignData "Pink" l "adjective" "neutral" "brushing" "lips" false

def createSignGrey : SignData :=
  let x : ℚ := 0.5
  let y : ℚ := 0.50
  let l :=
    [ lmk x y 0,
      lmk (x - 0.09) (y - 0.02) 0, lmk (x - 0.14) (y - 0.04) 0,
      lmk (x - 0.18) (y - 0.06) 0, lmk (x - 0.21) (y - 0.08) 0 ] ++
    ([-0.05, 0.0, 0.05, 0.10] : List ℚ).flatMap fun off =>
      let bx := x + off
      (List.range 4).map fun j =>
        lmk bx (y - 0.08 - (j : ℚ) * 0.05) (if j % 2 = 0 then 0.02 else -0.02)
  createSignData "Grey" l "adjective" "neutral" "passing" "neutral" true

def createSignColour : SignData :=
  let x : ℚ := 0.5
  let y : ℚ := 0.38
  let l :=
    [ lmk x y 0,
      lmk (x - 0.08) (y - 0.02) 0, lmk (x - 0.12) (y - 0.04) 0,
      lmk (x - 0.15) (y - 0.06) 0, lmk (x - 0.17) (y - 0.08) 0 ] ++
    ([-0.04, 0.0, 0.04, 0.08] : List ℚ).enum.flatMap fun p =>
      let bx := x + p.2
      let zOff : ℚ := if p.1 % 2 = 0 then 0.02 else -0.02
      (List.range 4).map fun j =>
        lmk bx (y - 0.07 - (j : ℚ) * 0.045) (zOff * ((j : ℚ) + 1) / 4)
  createSignData "Colour" l "noun" "neutral" "wiggling" "chin" false

/-- `_create_sign_day`: per-day configuration record. -/
structure DayConfig where
  thumb_angle : ℚ
  finger_spread : ℚ
  curl : ℚ

def dayConfigs : List (String × DayConfig) :=
  [("Monday", ⟨0.0, 0.03, 0.0⟩), ("Tuesday", ⟨0.02, 0.035, 0.01⟩),
   ("Wednesday", ⟨0.04, 0.04, 0.02⟩), ("Thursday", ⟨0.06, 0.032, 0.03⟩),
   ("Friday", ⟨0.08, 0.038, 0.0⟩), ("Saturday", ⟨0.10, 0.042, 0.01⟩),
   ("Sunday", ⟨0.12, 0.045, 0.02⟩)]

def createSignDay (day : String) : SignData :=
  let x : ℚ := 0.5
  let y : ℚ := 0.45
  let config := (dayConfigs.lookup day).getD ⟨0.0, 0.03, 0.0⟩
  let ta := config.thumb_angle
  let spread := config.finger_spread
  let curl := config.curl
  let l :=
    [ lmk x y 0,
      lmk (x - 0.06 - ta) (y - 0.02) 0, lmk (x - 0.10 - ta) (y - 0.05) 0,
      lmk (x - 0.13 - ta) (y - 0.08) 0, lmk (x - 0.15 - ta) (y - 0.10) 0 ] ++
    ([-spread, 0.0, spread, spread * 2] : List ℚ).flatMap fun off =>
      let bx := x + off
      (List.range 4).map fun j =>
        lmk (bx + (j : ℚ) * 0.005) (y - 0.08 - (j : ℚ) * 0.045) (curl * ((j : ℚ) / 3))
  createSignData day l "time" "neutral" "circular" "neutral" false

def createSignToday : SignData :=
  let x : ℚ := 0.5
  let y : ℚ := 0.50
  let l :=
    [ lmk x y 0,
      lmk (x - 0.06) (y + 0.02) 0.01, lmk (x - 0.08) (y + 0.05) 0.01,
      lmk (x - 0.09) (y + 0.08) 0.01, lmk (x - 0.09) (y + 0.10) 0.01 ] ++
    ([-0.03, 0.01, 0.05, 0.09] : List ℚ).flatMap fun off =>
      let bx := x + off
      (List.range 4).map fun j => lmk bx (y + 0.02 + (j : ℚ) * 0.05) 0
  createSignData "Today" l "time" "neutral" "downward" "neutral" true

def createSignI : SignData :=
  let x : ℚ := 0.52
  let y : ℚ := 0.48
  let l :=
    [ lmk x y 0,
      lmk (x - 0.04) (y - 0.02) 0.03, lmk (x - 0.05) (y - 0.04) 0.05,
      lmk (x - 0.04) (y - 0.06) 0.05, lmk (x - 0.02) (y - 0.07) 0.04,
      lmk (x - 0.02) (y - 0.08) 0, lmk (x - 0.04) (y - 0.12) 0.06,
      lmk (x - 0.06) (y - 0.15) 0.10, lmk (x - 0.08) (y - 0.17) 0.12 ] ++
    ([0.02, 0.06, 0.10] : List ℚ).flatMap fun off =>
      let bx := x + off
      [ lmk bx (y - 0.06) 0, lmk bx (y - 0.08) 0.04,
        lmk (bx + 0.01) (y - 0.06) 0.06, lmk (bx + 0.01) (y - 0.03) 0.05 ]
  createSignData "I" l "pronoun" "neutral" "static" "chest" false

def createSignYou : SignData :=
  let x : ℚ := 0.5
  let y : ℚ := 0.45
  let l :=
    [ lmk x y 0,
      lmk (x - 0.04) (y - 0.02) 0.03, lmk (x - 0.05) (y - 0.04) 0.05,
      lmk (x - 0.04) (y - 0.06) 0.05, lmk (x - 0.02) (y - 0.07) 0.04,
      lmk (x - 0.02) (y - 0.08) 0, lmk (x - 0.02) (y - 0.12) (-0.04),
      lmk (x - 0.02) (y - 0.16) (-0.08), lmk (x - 0.02) (y - 0.20) (-0.12) ] ++
    ([0.02, 0.06, 0.10] : List ℚ).flatMap fun off =>
      let bx := x + off
      [ lmk bx (y - 0.06) 0, lmk bx (y - 0.08) 0.04,
        lmk (bx + 0.01) (y - 0.06) 0.06, lmk (bx + 0.01) (y - 0.03) 0.05 ]
  createSignData "You" l "pronoun" "neutral" "pointing_out" "neutral" false

def createSignHe : SignData :=
  let x : ℚ := 0.55
  let y : ℚ := 0.42
  let l :=
    [ lmk x y 0,
      lmk (x - 0.04) (y - 0.02) 0.03, lmk (x - 0.05) (y - 0.04) 0.05,
      lmk (x - 0.04) (y - 0.06) 0.05, lmk (x - 0.02) (y - 0.07) 0.04,
      lmk (x - 0.02) (y - 0.08) 0, lmk (x + 0.04) (y - 0.09) 0,
      lmk (x + 0.10) (y - 0.09) 0, lmk (x + 0.16) (y - 0.09) 0 ] ++
    ([0.02, 0.06, 0.10] : List ℚ).flatMap fun off =>
      let bx := x + off
      [ lmk bx (y - 0.06) 0, lmk bx (y - 0.08) 0.04,
        lmk (bx + 0.01) (y - 0.06) 0.06, lmk (bx + 0.01) (y - 0.03) 0.05 ]
  createSignData "He" l "pronoun" "neutral" "pointing_side" "neutral" false

def createSignShe : SignData :=
  let x : ℚ := 0.45
  let y : ℚ := 0.42
  let l :=
    [ lmk x y 0,
      lmk (x - 0.04) (y - 0.02) 0.03, lmk (x - 0.05) (y - 0.04) 0.05,
      lmk (x - 0.04) (y - 0.06) 0.05, lmk (x - 0.02) (y - 0.07) 0.04,
      lmk (x - 0.02) (y - 0.08) 0, lmk (x - 0.08) (y - 0.09) 0,
      lmk (x - 0.14) (y - 0.09) 0, lmk (x - 0.20) (y - 0.09) 0 ] ++
    ([0.02, 0.06, 0.10] : List ℚ).flatMap fun off =>
      let bx := x + off
      [ lmk bx (y - 0.06) 0, lmk bx (y - 0.08) 0.04,
        lmk (bx + 0.01) (y - 0.06) 0.06, lmk (bx + 0.01) (y - 0.03) 0.05 ]
  createSignData "She" l "pronoun" "neutral" "pointing_side" "neutral" false

def createSignIt : SignData :=
  let x : ℚ := 0.5
  let y : ℚ := 0.48
  let l :=
    [ lmk x y 0,
      lmk (x - 0.04) (y - 0.02) 0.03, lmk (x - 0.05) (y - 0.04) 0.05,
      lmk (x - 0.04) (y - 0.06) 0.05, lmk (x - 0.02) (y - 0.07) 0.04,
      lmk (x - 0.02) (y - 0.06) 0, lmk (x - 0.02) y 0,
      lmk (x - 0.02) (y + 0.06) 0, lmk (x - 0.02) (y + 0.12) 0 ] ++
    ([0.02, 0.06, 0.10] : List ℚ).flatMap fun off =>
      let bx := x + off
      [ lmk bx (y - 0.06) 0, lmk bx (y - 0.08) 0.04,
        lmk (bx + 0.01) (y - 0.06) 0.06, lmk (bx + 0.01) (y - 0.03) 0.05 ]
  createSignData "It" l "pronoun" "neutral" "pointing_down" "neutral" false

def createSignBlind : SignData :=
  let x : ℚ := 0.5
  let y : ℚ := 0.26
  let l :=
    [ lmk x y 0,
      lmk (x - 0.04) (y - 0.02) 0.03, lmk (x - 0.05) (y - 0.04) 0.05,
      lmk (x - 0.04) (y - 0.06) 0.05, lmk (x - 0.02) (y - 0.07) 0.04,
      lmk (x - 0.04) (y - 0.08) 0, lmk (x - 0.06) (y - 0.14) 0.02,
      lmk (x - 0.08) (y - 0.18) 0.03, lmk (x - 0.10) (y - 0.21) 0.03,
      lmk x (y - 0.08) 0, lmk (x + 0.02) (y - 0.14) 0.02,
      lmk (x + 0.04) (y - 0.18) 0.03, lmk (x + 0.06) (y - 0.21) 0.03 ] ++
    ([0.04, 0.08] : List ℚ).flatMap fun off =>
      let bx := x + off
      [ lmk bx (y - 0.06) 0, lmk bx (y - 0.08) 0.04,
        lmk (bx + 0.01) (y - 0.06) 0.06, lmk (bx + 0.01) (y - 0.03) 0.05 ]
  createSignData "Blind" l "adjective" "neutral" "static" "eyes" false

def createSignDeaf : SignData :=
  let x : ℚ := 0.62
  let y : ℚ := 0.28
  let l :=
    [ lmk x y 0,
      lmk (x - 0.04) (y - 0.02) 0.02, lmk (x - 0.06) (y - 0.04) 0.03,
      lmk (x - 0.07) (y - 0.06) 0.03, lmk (x - 0.07) (y - 0.08) 0.03,
      lmk (x - 0.02) (y - 0.08) 0, lmk (x - 0.02) (y - 0.13) 0,
      lmk (x - 0.02) (y - 0.17) 0, lmk (x - 0.02) (y - 0.20) 0 ] ++
    ([0.02, 0.06, 0.10] : List ℚ).flatMap fun off =>
      let bx := x + off
      [ lmk bx (y - 0.07) 0, lmk bx (y - 0.10) 0.02,
        lmk (bx + 0.01) (y - 0.09) 0.04, lmk (bx + 0.01) (y - 0.06) 0.03 ]
  createSignData "Deaf" l "adjective" "neutral" "touching" "ear" false

def createSignDream : SignData :=
  let x : ℚ := 0.52
  let y : ℚ := 0.25
  let startHand :=
    [ lmk x y 0,
      lmk (x - 0.04) (y - 0.02) 0.03, lmk (x - 0.05) (y - 0.04) 0.05,
      lmk (x - 0.04) (y - 0.06) 0.05, lmk (x - 0.02) (y - 0.07) 0.04,
      lmk (x - 0.02) (y - 0.08) 0, lmk (x - 0.02) (y - 0.13) 0,
      lmk (x - 0.02) (y - 0.17) 0, lmk (x - 0.02) (y - 0.20) 0 ] ++
    ([0.02, 0.06, 0.10] : List ℚ).flatMap fun off =>
      let bx := x + off
      [ lmk bx (y - 0.06) 0, lmk bx (y - 0.08) 0.04,
        lmk (bx + 0.01) (y - 0.06) 0.06, lmk (bx + 0.01) (y - 0.03) 0.05 ]
  let x2 := x + 0.12
  let y2 := y - 0.08
  let endHand :=
    [ lmk x2 y2 0,
      lmk (x2 - 0.04) (y2 - 0.02) 0.03, lmk (x2 - 0.05) (y2 - 0.04) 0.05,
      lmk (x2 - 0.04) (y2 - 0.06) 0.05, lmk (x2 - 0.02) (y2 - 0.07) 0.04,
      lmk (x2 - 0.02) (y2 - 0.08) 0, lmk (x2 - 0.02) (y2 - 0.13) 0,
      lmk (x2 - 0.02) (y2 - 0.17) 0, lmk (x2 - 0.02) (y2 - 0.20) 0 ] ++
    ([0.02, 0.06, 0.10] : List ℚ).flatMap fun off =>
      let bx := x2 + off
      [ lmk bx (y2 - 0.06) 0, lmk bx (y2 - 0.08) 0.04,
        lmk (bx + 0.01) (y2 - 0.06) 0.06, lmk (bx + 0.01) (y2 - 0.03) 0.05 ]
  createAnimatedSign "Dream" startHand endHand "rising" "calm" "forehead" false

def createSignLoud : SignData :=
  let x : ℚ := 0.58
  let y : ℚ := 0.28
  let l :=
    [ lmk x y 0,
      lmk (x - 0.08) (y - 0.02) 0, lmk (x - 0.12) (y - 0.04) 0,
      lmk (x - 0.15) (y - 0.06) 0, lmk (x - 0.17) (y - 0.08) 0 ] ++
    ([-0.05, 0.0, 0.05, 0.10] : List ℚ).enum.flatMap fun p =>
      let bx := x + p.2
      let angle := ((p.1 : ℚ) - 1.5) * 0.05
      (List.range 4).map fun j =>
        lmk (bx + (j : ℚ) * angle) (y - 0.08 - (j : ℚ) * 0.05) 0
  createSignData "Loud" l "adjective" "neutral" "expanding" "ears" true

def createSignQuiet : SignData :=
  let x : ℚ := 0.5
  let y : ℚ := 0.32
  let l :=
    [ lmk x y 0,
      lmk (x - 0.05) (y - 0.02) 0.03, lmk (x - 0.07) (y - 0.04) 0.05,
      lmk (x - 0.08) (y - 0.06) 0.06, lmk (x - 0.08) (y - 0.08) 0.06,
      lmk (x - 0.02) (y - 0.06) 0, lmk (x - 0.02) (y - 0.11) 0,
      lmk (x - 0.02) (y - 0.15) 0, lmk (x - 0.02) (y - 0.18) 0 ] ++
    ([0.02, 0.06, 0.10] : List ℚ).flatMap fun off =>
      let bx := x + off
      [ lmk bx (y - 0.05) 0, lmk bx (y - 0.07) 0.05,
        lmk (bx + 0.02) (y - 0.05) 0.07, lmk (bx + 0.02) (y - 0.02) 0.06 ]
  createSignData "Quiet" l "adjective" "calm" "downward" "lips" false

/-! ## The sign database (`_build_sign_database`, `get_sign`,
`_interpolate_landmarks`) -/

/-- `ISLDatabase.class_labels` (the published vocabulary). -/
def dbClassLabels : List String :=
  ["0", "1", "2", "3", "4", "5", "6", "7", "8", "9",
   "A", "Alright", "Animal", "B", "Beautiful", "Bed", "Bedroom", "Bird", "Black", "Blind",
   "C", "Cat", "Chair", "Colour", "Cow", "D", "Daughter", "Deaf", "Dog", "Door", "Dream",
   "E", "F", "Father", "Fish", "Friday", "G", "Good Morning", "Good night", "Grey",
   "H", "Happy", "He", "Hello", "Horse", "How are you", "I", "It",
   "J", "K", "L", "Loud", "M", "Monday", "Mother", "Mouse",
   "N", "O", "Orange", "P", "Parent", "Pink", "Pleased",
   "Q", "Quiet", "R", "S", "Sad", "Saturday", "She", "Son", "Sunday",
   "T", "Table", "Thank you", "Thursday", "Today", "Tuesday",
   "U", "Ugly", "V", "W", "Wednesday", "White", "Window",
   "X", "Y", "You", "Z"]

/-- `_build_sign_database`: insertion-ordered dictionary of all signs
(all keys are distinct, so an association list with first-match lookup
is equivalent to the Python dict). -/
def buildSignDatabase : List (String × SignData) :=
  [("0", createSign0), ("1", createSign1), ("2", createSign2),
   ("3", createSign3), ("4", createSign4), ("5", createSign5),
   ("6", createSign6), ("7", createSign7), ("8", createSign8),
   ("9", createSign9)] ++
  ("ABCDEFGHIJKLMNOPQRSTUVWXYZ".toList.map fun c =>
    (String.singleton c, createLetterSign (String.singleton c))) ++
  [("Hello", createSignHello), ("Thank you", createSignThankYou),
   ("Good Morning", createSignGoodMorning), ("Good night", createSignGoodNight),
   ("How are you", createSignHowAreYou),
   ("Happy", createSignHappy), ("Sad", createSignSad),
   ("Beautiful", createSignBeautiful), ("Ugly", createSignUgly),
   ("Alright", createSignAlright), ("Pleased", createSignPleased),
   ("Animal", createSignAnimal), ("Bird", createSignBird),
   ("Cat", createSignCat), ("Dog", createSignDog), ("Cow", createSignCow),
   ("Horse", createSignHorse), ("Mouse", createSignMouse),
   ("Fish", createSignFish),
   ("Mother", createSignMother), ("Father", createSignFather),
   ("Daughter", createSignDaughter), ("Son", createSignSon),
   ("Parent", createSignParent),
   ("Chair", createSignChair), ("Table", createSignTable),
   ("Bed", createSignBed), ("Bedroom", createSignBedroom),
   ("Door", createSignDoor), ("Window", createSignWindow),
   ("Black", createSignBlack), ("White", createSignWhite),
   ("Orange", createSignOrange), ("Pink", createSignPink),
   ("Grey", createSignGrey), ("Colour", createSignColour)] ++
  (["Monday", "Tuesday", "Wednesday", "Thursday", "Friday", "Saturday",
    "Sunday"].map fun day => (day, createSignDay day)) ++
  [("Today", createSignToday),
   ("I", createSignI), ("You", createSignYou), ("He", createSignHe),
   ("She", createSignShe), ("It", createSignIt),
   ("Blind", createSignBlind), ("Deaf", createSignDeaf),
   ("Dream", createSignDream), ("Loud", createSignLoud),
   ("Quiet", createSignQuiet)]

/-- `_get_default_sign`: the fallback for unknown tokens. -/
def defaultSign : SignData :=
  createSignData "Unknown" (createBaseHand 0.5 0.5) "default" "question"
    "static" "neutral" false

/-- `ISLDatabase.get_sign`: dictionary lookup with fallback. -/
def getSign (signName : String) : SignData :=
  (buildSignDatabase.lookup signName).getD defaultSign

/-- `ISLDatabase._interpolate_landmarks`: component-wise linear
interpolation over the shorter of the two landmark lists. -/
def interpolateLandmarks (start finish : HandPose) (progress : ℚ) : HandPose :=
  (List.range (min start.length finish.length)).map fun i =>
    { x := (getLm start i).x + ((getLm finish i).x - (getLm start i).x) * progress,
      y := (getLm start i).y + ((getLm finish i).y - (getLm start i).y) * progress,
      z := (getLm start i).z + ((getLm finish i).z - (getLm start i).z) * progress }

/-! ## Text normalizer (`nlp_processor.py`)

The library-free code path is embedded (no NLTK): `tokenize` falls back to
whitespace splitting and `lemmatize` is the identity, exactly as in the
`NLTK_AVAILABLE == False` branch of the source.  Character predicates model
the ASCII fragment of Python's `str.lower` / `\w`, which covers the whole
closed vocabulary. -/

/-- `NLPProcessor.class_labels` (order as written in `nlp_processor.py`). -/
def nlpClassLabels : List String :=
  ["0", "1", "2", "3", "4", "5", "6", "7", "8", "9",
   "A", "Alright", "Animal", "B", "Beautiful", "Bed", "Bedroom", "Bird", "Black", "Blind",
   "C", "Cat", "Chair", "Colour", "Cow", "D", "Daughter", "Deaf", "Dog", "Door", "Dream",
   "E", "F", "Father", "Fish", "Friday", "G", "Good Morning", "Good night", "Grey",
   "H", "Happy", "He", "Hello", "Horse", "How are you", "I", "It",
   "J", "K", "L", "Loud", "M", "Monday", "Mother", "Mouse",
   "N", "O", "Orange", "P", "Parent", "Pink", "Pleased",
   "Q", "Quiet", "R", "S", "Sad", "Saturday", "Sunday", "She", "Son",
   "T", "Table", "Thank you", "Thursday", "Today", "Tuesday",
   "U", "Ugly", "V", "W", "Wednesday", "White", "Window",
   "X", "Y", "You", "Z"]

/-- `_build_word_mappings`.  The only repeated key of the Python dict
literal is `i` (letter section and pronoun section), both with value `I`,
so first-match lookup on this association list agrees with the dict. -/
def wordToSign : List (String × String) :=
  [("zero", "0"), ("one", "1"), ("two", "2"), ("three", "3"), ("four", "4"),
   ("five", "5"), ("six", "6"), ("seven", "7"), ("eight", "8"), ("nine", "9"),
   ("0", "0"), ("1", "1"), ("2", "2"), ("3", "3"), ("4", "4"),
   ("5", "5"), ("6", "6"), ("7", "7"), ("8", "8"), ("9", "9"),
   ("a", "A"), ("b", "B"), ("c", "C"), ("d", "D"), ("e", "E"), ("f", "F"),
   ("g", "G"), ("h", "H"), ("i", "I"), ("j", "J"), ("k", "K"), ("l", "L"),
   ("m", "M"), ("n", "N"), ("o", "O"), ("p", "P"), ("q", "Q"), ("r", "R"),
   ("s", "S"), ("t", "T"), ("u", "U"), ("v", "V"), ("w", "W"), ("x", "X"),
   ("y", "Y"), ("z", "Z"),
   ("hello", "Hello"), ("hi", "Hello"), ("hey", "Hello"),
   ("thank", "Thank you"), ("thanks", "Thank you"),
   ("happy", "Happy"), ("happiness", "Happy"), ("happily", "Happy"),
   ("sad", "Sad"), ("sadness", "Sad"), ("sadly", "Sad"),
   ("beautiful", "Beautiful"), ("beauty", "Beautiful"), ("pretty", "Beautiful"),
   ("ugly", "Ugly"), ("ugliness", "Ugly"),
   ("alright", "Alright"), ("okay", "Alright"), ("ok", "Alright"), ("fine", "Alright"),
   ("please", "Pleased"), ("pleased", "Pleased"), ("pleasure", "Pleased"),
   ("animal", "Animal"), ("animals", "Animal"),
   ("bird", "Bird"), ("birds", "Bird"),
   ("cat", "Cat"), ("cats", "Cat"), ("kitten", "Cat"), ("kitty", "Cat"),
   ("dog", "Dog"), ("dogs", "Dog"), ("puppy", "Dog"), ("puppies", "Dog"),
   ("cow", "Cow"), ("cows", "Cow"), ("cattle", "Cow"),
   ("horse", "Horse"), ("horses", "Horse"), ("pony", "Horse"),
   ("mouse", "Mouse"), ("mice", "Mouse"), ("rat", "Mouse"),
   ("fish", "Fish"), ("fishes", "Fish"), ("fishing", "Fish"),
   ("mother", "Mother"), ("mom", "Mother"), ("mum", "Mother"),
   ("mommy", "Mother"), ("mama", "Mother"),
   ("father", "Father"), ("dad", "Father"), ("daddy", "Father"), ("papa", "Father"),
   ("daughter", "Daughter"), ("daughters", "Daughter"),
   ("son", "Son"), ("sons", "Son"),
   ("parent", "Parent"), ("parents", "Parent"),
   ("chair", "Chair"), ("chairs", "Chair"), ("seat", "Chair"),
   ("table", "Table"), ("tables", "Table"), ("desk", "Table"),
   ("bed", "Bed"), ("beds", "Bed"), ("sleeping", "Bed"),
   ("bedroom", "Bedroom"), ("bedrooms", "Bedroom"), ("room", "Bedroom"),
   ("door", "Door"), ("doors", "Door"), ("doorway", "Door"),
   ("window", "Window"), ("windows", "Window"),
   ("black", "Black"), ("dark", "Black"),
   ("white", "White"), ("light", "White"),
   ("orange", "Orange"),
   ("pink", "Pink"),
   ("grey", "Grey"), ("gray", "Grey"),
   ("colour", "Colour"), ("color", "Colour"), ("colors", "Colour"), ("colours", "Colour"),
   ("monday", "Monday"), ("mon", "Monday"),
   ("tuesday", "Tuesday"), ("tue", "Tuesday"), ("tues", "Tuesday"),
   ("wednesday", "Wednesday"), ("wed", "Wednesday"),
   ("thursday", "Thursday"), ("thu", "Thursday"), ("thurs", "Thursday"),
   ("friday", "Friday"), ("fri", "Friday"),
   ("saturday", "Saturday"), ("sat", "Saturday"),
   ("sunday", "Sunday"), ("sun", "Sunday"),
   ("today", "Today"),
   ("i", "I"), ("me", "I"), ("my", "I"), ("myself", "I"),
   ("you", "You"), ("your", "You"), ("yours", "You"), ("yourself", "You"),
   ("he", "He"), ("him", "He"), ("his", "He"), ("himself", "He"),
   ("she", "She"), ("her", "She"), ("hers", "She"), ("herself", "She"),
   ("it", "It"), ("its", "It"), ("itself", "It"),
   ("blind", "Blind"), ("blindness", "Blind"),
   ("deaf", "Deaf"), ("deafness", "Deaf"),
   ("dream", "Dream"), ("dreams", "Dream"), ("dreaming", "Dream"), ("dreamt", "Dream"),
   ("loud", "Loud"), ("loudly", "Loud"), ("loudness", "Loud"), ("noisy", "Loud"),
   ("quiet", "Quiet"), ("quietly", "Quiet"), ("silence", "Quiet"), ("silent", "Quiet"),
   ("morning", "Good Morning"),
   ("night", "Good night"), ("goodnight", "Good night")]

/-- `_get_basic_stopwords` (the library-free stop-word set). -/
def basicStopwords : List String :=
  ["a", "an", "the", "is", "are", "was", "were", "be", "been", "being",
   "have", "has", "had", "do", "does", "did", "will", "would", "could",
   "should", "may", "might", "must", "shall", "can", "need", "dare",
   "ought", "used", "to", "of", "in", "for", "on", "with", "at", "by",
   "from", "as", "into", "through", "during", "before", "after",
   "above", "below", "between", "under", "again", "further", "then",
   "once", "here", "there", "when", "where", "why", "what", "which",
   "who", "whom", "this", "that", "these", "those", "am", "and", "but",
   "if", "or", "because", "until", "while", "very", "just", "only",
   "own", "same", "so", "than", "too", "also", "such", "no", "not",
   "both", "each", "few", "more", "most", "other", "some", "any", "all"]

/-- `keep_words`: words exempt from stop-word removal. -/
def keepWords : List String :=
  ["i", "you", "he", "she", "it", "how", "are",
   "good", "morning", "night", "today"]

/-- `self.stop_words = self.stop_words - self.keep_words`. -/
def stopWords : List String :=
  basicStopwords.filter fun w => ¬ keepWords.contains w

/-! Python string primitives, modelled at the character-list level (ASCII
fragment; structurally recursive so they evaluate inside proofs). -/

/-- Python `str.lower()`. -/
def pyLower (s : String) : String := String.mk (s.data.map Char.toLower)

/-- Python `str.upper()`. -/
def pyUpper (s : String) : String := String.mk (s.data.map Char.toUpper)

/-- Python `str.strip()`. -/
def pyStrip (s : String) : String :=
  String.mk
    (((s.data.dropWhile Char.isWhitespace).reverse.dropWhile
      Char.isWhitespace).reverse)

/-- Helper of `pySplitWs`: split a character list on whitespace runs. -/
def splitWsAux : List Char → List Char → List (List Char)
  | [], acc => if acc = [] then [] else [acc.reverse]
  | c :: cs, acc =>
    if c.isWhitespace then
      if acc = [] then splitWsAux cs [] else acc.reverse :: splitWsAux cs []
    else splitWsAux cs (c :: acc)

/-- Python `str.split()` (split on whitespace, no empty pieces). -/
def pySplitWs (s : String) : List String :=
  (splitWsAux s.data []).map String.mk

/-- Helper of `joinSpace`: `' '.join` on character lists. -/
def joinSpaceAux : List (List Char) → List Char
  | [] => []
  | [x] => x
  | x :: y :: rest => x ++ ' ' :: joinSpaceAux (y :: rest)

/-- Python `' '.join(parts)`. -/
def joinSpace (parts : List String) : String :=
  String.mk (joinSpaceAux (parts.map String.data))

/-- Python `pattern in s` on character lists (patterns here are nonempty). -/
def containsSubstrChars : List Char → List Char → Bool
  | [], pat => pat.isPrefixOf []
  | c :: cs, pat => pat.isPrefixOf (c :: cs) || containsSubstrChars cs pat

/-- Python `pattern in s` for a nonempty pattern. -/
def containsSubstr (s pat : String) : Bool :=
  containsSubstrChars s.data pat.data

/-- Helper of `pyReplace`: replace every occurrence of `pat` by `rep`,
fuelled by the input length (one character is consumed per step because
the patterns used are nonempty, so the fuel never runs out). -/
def replaceAllFuel : ℕ → List Char → List Char → List Char → List Char
  | 0, l, _, _ => l
  | fuel + 1, l, pat, rep =>
    match l with
    | [] => []
    | c :: cs =>
      if pat ≠ [] ∧ pat.isPrefixOf (c :: cs) then
        rep ++ replaceAllFuel fuel ((c :: cs).drop pat.length) pat rep
      else c :: replaceAllFuel fuel cs pat rep

/-- Python `s.replace(pat, rep)` (all occurrences, nonempty `pat`). -/
def pyReplace (s pat rep : String) : String :=
  String.mk (replaceAllFuel s.data.length s.data pat.data rep.data)

/-- `preprocess_text`: lowercase, strip, collapse whitespace, replace
punctuation (`[^\w\s]`) by spaces, collapse again. -/
def preprocessText (text : String) : String :=
  let text := pyStrip (pyLower text)
  let text := joinSpace (pySplitWs text)
  let text := String.mk (text.data.map fun c =>
    if c.isAlphanum || c = '_' || c.isWhitespace then c else ' ')
  joinSpace (pySplitWs text)

/-- `self.phrases`: multi-word phrases and their sign tokens. -/
def phrases : List (String × String) :=
  [("how are you", "How are you"), ("good morning", "Good Morning"),
   ("good night", "Good night"), ("thank you", "Thank you")]

/-- `sorted(self.phrases.keys(), key=len, reverse=True)`: the four keys have
the distinct lengths 11, 12, 10, 9, so the sorted order is fixed. -/
def sortedPhrases : List String :=
  ["good morning", "how are you", "good night", "thank you"]

/-- `detect_phrases`: longest-first scan, each hit removed (all
occurrences, as `str.replace` does) and recorded. -/
def detectPhrases (text : String) : List String × String :=
  let remaining := pyLower text
  let scan := sortedPhrases.foldl
    (fun (st : List String × String) phrase =>
      if containsSubstr st.2 phrase then
        (st.1 ++ [(phrases.lookup phrase).getD ""], pyReplace st.2 phrase " ")
      else st)
    ([], remaining)
  (scan.1, joinSpace (pySplitWs scan.2))

/-- `tokenize` (library-free branch: whitespace split). -/
def tokenize (text : String) : List String := pySplitWs text

/-- `lemmatize` (library-free branch: tokens pass through unchanged). -/
def lemmatize (tokens : List String) : List String := tokens

/-- `remove_stopwords`: drop stop words unless a sign mapping exists. -/
def removeStopwords (tokens : List String) : List String :=
  tokens.filter fun token =>
    ¬ stopWords.contains token || (wordToSign.lookup token).isSome

/-- `_should_repeat`: pronoun-class signs may repeat. -/
def shouldRepeat (sign : String) : Bool :=
  ["I", "You", "He", "She", "It"].contains sign

/-- One fingerspelling expansion: the letters of the uppercased token that
are in the vocabulary, in order (`for char in token.upper(): ...`). -/
def fingerspell (token : String) : List String :=
  (pyUpper token).data.filterMap fun c =>
    if nlpClassLabels.contains (String.singleton c) then
      some (String.singleton c)
    else none

/-- The loop body of `map_to_signs`, with the accumulated `signs` list
made explicit. -/
def mapToSignsLoop : List String → List String → List String
  | acc, [] => acc
  | acc, token :: rest =>
    match wordToSign.lookup token with
    | some sign =>
      if ¬ acc.contains sign || shouldRepeat sign then
        mapToSignsLoop (acc ++ [sign]) rest
      else mapToSignsLoop acc rest
    | none =>
      if 2 < token.length then
        mapToSignsLoop (acc ++ fingerspell token) rest
      else mapToSignsLoop acc rest

/-- `map_to_signs`. -/
def mapToSigns (tokens : List String) : List String :=
  mapToSignsLoop [] tokens

/-- The result dictionary of `NLPProcessor.process`. -/
structure ProcessResult where
  original_text : String
  preprocessed : String
  phrases_detected : List String
  tokens : List String
  lemmatized : List String
  filtered : List String
  isl_signs : List String
  deriving Repr, DecidableEq

/-- The time-expression tokens that are moved to the front in `process`. -/
def timeSignTokens : List String :=
  ["Today", "Monday", "Tuesday", "Wednesday", "Thursday", "Friday",
   "Saturday", "Sunday"]

/-- `NLPProcessor.process`: the full normalization pipeline. -/
def process (text : String) : ProcessResult :=
  let preprocessed := preprocessText text
  let scan := detectPhrases preprocessed
  let tokens := tokenize scan.2
  let lemmatized := lemmatize tokens
  let filtered := removeStopwords lemmatized
  let wordSigns := mapToSigns filtered
  let combined := scan.1 ++ wordSigns
  let timeSigns := combined.filter fun s => timeSignTokens.contains s
  let otherSigns := combined.filter fun s => ¬ timeSignTokens.contains s
  { original_text := text, preprocessed := preprocessed,
    phrases_detected := scan.1, tokens := tokens, lemmatized := lemmatized,
    filtered := filtered, isl_signs := timeSigns ++ otherSigns }

/-! ## Motion synthesizer (`animation_generator.py`)

Frame timing stays in `ℚ` (exact model of the float arithmetic, see the
header); hand poses of generated frames live in `ℝ` because the motion
deformations use `math.sin` / `math.cos`; everything touching `ℝ` is
noncomputable in Lean, while all timing and scheduling stays executable. -/

/-- A facial-expression configuration (`self.facial_expressions[...]`). -/
structure FacialExpr where
  eyebrows : ℚ
  mouth : String
  eyes : String
  deriving Repr, DecidableEq

/-- `self.facial_expressions`. -/
def facialExpressions : List (String × FacialExpr) :=
  [("neutral", ⟨0, "closed", "open"⟩), ("smile", ⟨0.1, "smile", "open"⟩),
   ("sad", ⟨-0.2, "frown", "droopy"⟩), ("question", ⟨0.3, "open_slight", "wide"⟩),
   ("calm", ⟨0, "closed", "relaxed"⟩), ("frown", ⟨-0.3, "frown", "narrow"⟩),
   ("intense", ⟨0.2, "open", "wide"⟩)]

/-- A body-posture configuration (`self.body_postures[...]`). -/
structure BodyPosture where
  shoulder_rotation : ℚ
  torso_tilt : ℚ
  head_tilt : ℚ
  deriving Repr, DecidableEq

/-- `self.body_postures`. -/
def bodyPostures : List (String × BodyPosture) :=
  [("neutral", ⟨0, 0, 0⟩), ("head", ⟨0, 0, 0.1⟩), ("chest", ⟨0, 0.05, 0⟩),
   ("face", ⟨0, 0, 0.15⟩), ("forehead", ⟨0, 0, 0.2⟩), ("chin", ⟨0, 0, -0.1⟩),
   ("ears", ⟨0.1, 0, 0⟩), ("temple", ⟨0.05, 0, 0.1⟩), ("nose", ⟨0, 0, 0.05⟩),
   ("mouth", ⟨0, 0, 0⟩), ("lips", ⟨0, 0, 0⟩), ("cheek", ⟨0.05, 0, 0.05⟩),
   ("eyes", ⟨0, 0, 0.1⟩), ("ear", ⟨0.1, 0, 0.05⟩), ("thigh", ⟨0, 0.1, -0.1⟩)]

/-- `_ease_in_out_cubic`. -/
def easeInOutCubic (t : ℚ) : ℚ :=
  if t < 0.5 then 4 * t * t * t else 1 - (-2 * t + 2) ^ 3 / 2

/-- `_interpolate_facial` (returns the expression unchanged). -/
def interpolateFacial (expression : FacialExpr) (_progress : ℚ) : FacialExpr :=
  expression

/-- Python `int()` applied to a (modelled-as-exact) float: truncation
toward zero. -/
def pyInt (q : ℚ) : ℤ := if q < 0 then ⌈q⌉ else ⌊q⌋

/-- `self.config`: animation configuration constants. -/
def animFps : ℤ := 30

def animDefaultSignDuration : ℤ := 1500

def animTransitionDuration : ℤ := 300

def animMinSignDuration : ℤ := 800

def animMaxSignDuration : ℤ := 2500

/-- `_calculate_sign_duration`: base duration by sign type, adjusted by
motion type, clamped to `[min, max]`. -/
def calculateSignDuration (signData : SignData) : ℤ :=
  let base := animDefaultSignDuration
  let base :=
    if signData.type = "letter" then 800
    else if signData.type = "number" then 1000
    else if signData.type = "phrase" then 2000
    else if signData.type = "animated" then 1800
    else base
  let base :=
    if ["circular", "wave", "alternating"].contains signData.motion_type then
      base + 300
    else if signData.motion_type = "static" then base - 200
    else base
  max animMinSignDuration (min animMaxSignDuration base)

/-- `total_frames = max(int(duration / 1000 * fps), 5)` of
`_generate_sign_frames`.  The float product is exact for every duration the
duration policy can produce (all are multiples of 100 in `[800, 2500]`,
checked value by value against IEEE-754 double arithmetic), so the exact
rational model coincides with the source. -/
def signTotalFrames (duration : ℤ) : ℕ :=
  (max (pyInt ((duration : ℚ) / 1000 * (animFps : ℚ))) 5).toNat

/-- `total_frames = max(int(duration / 1000 * fps), 3)` of
`_generate_transition_frames` (the float value `300/1000*30` rounds to
exactly `9.0`, so this is `9`). -/
def transitionTotalFrames : ℕ :=
  (max (pyInt ((animTransitionDuration : ℚ) / 1000 * (animFps : ℚ))) 3).toNat

/-- One entry of `animation_data['schedule']`. -/
structure ScheduleEntry where
  sign : String
  start_time : ℤ
  end_time : ℤ
  duration : ℤ
  frame_start : ℕ
  frame_count : ℕ
  deriving Repr, DecidableEq

noncomputable section

/-- A landmark of a generated animation frame (real-valued). -/
structure RLandmark where
  x : ℝ
  y : ℝ
  z : ℝ

/-- Cast an authored (rational) landmark into a frame landmark. -/
def castLm (a : Landmark) : RLandmark := ⟨(a.x : ℝ), (a.y : ℝ), (a.z : ℝ)⟩

/-- Cast an authored hand pose into a frame hand pose. -/
def castPose (l : HandPose) : List RLandmark := l.map castLm

/-- Body posture of one frame (`_interpolate_body_posture` adds a real
sinusoidal variation to the shoulder rotation). -/
structure BodyFrame where
  shoulder_rotation : ℝ
  torso_tilt : ℚ
  head_tilt : ℚ

/-- The right/left hand pair a motion interpolation function returns. -/
abbrev Hands := List RLandmark × Option (List RLandmark)

/-- A motion interpolation function (`self.motion_patterns` entries). -/
abbrev MotionFn := List Keyframe → ℚ → SignData → Hands

/-- First keyframe, as accessed by the motion functions
(`keyframes[0]`; the generator guarantees the list is nonempty). -/
def headKf (keyframes : List Keyframe) : Keyframe :=
  keyframes.headD ⟨0, createBaseHand 0.5 0.5, none⟩

open Real in
/-- `_interpolate_static`. -/
def interpolateStatic : MotionFn := fun keyframes _ sd =>
  let kf := headKf keyframes
  (castPose kf.right_hand,
   if sd.two_hands then kf.left_hand.map castPose else none)

open Real in
/-- `_interpolate_wave`: `x += sin(progress·π·4)·0.05` on `keyframes[0]`. -/
def interpolateWave : MotionFn := fun keyframes progress _ =>
  let base := (headKf keyframes).right_hand
  let waveOffset := sin ((progress : ℝ) * π * 4) * 0.05
  ((castPose base).map fun a => { a with x := a.x + waveOffset }, none)

open Real in
/-- `_interpolate_circular`. -/
def interpolateCircular : MotionFn := fun keyframes progress _ =>
  let base := (headKf keyframes).right_hand
  let angle := (progress : ℝ) * π * 2
  let radius : ℝ := 0.03
  ((castPose base).map fun a =>
    { a with x := a.x + cos angle * radius, y := a.y + sin angle * radius },
   none)

/-- `_interpolate_outward`: pure keyframe interpolation when two keyframes
exist, else an outward ramp on `keyframes[0]`. -/
def interpolateOutward : MotionFn := fun keyframes progress _ =>
  if 2 ≤ keyframes.length then
    let start := (headKf keyframes).right_hand
    let finish := ((keyframes.getD 1 (headKf keyframes))).right_hand
    (castPose (interpolateLandmarks start finish progress), none)
  else
    let base := (headKf keyframes).right_hand
    ((castPose base).map fun a =>
      { a with y := a.y + (progress : ℝ) * 0.1, z := a.z - (progress : ℝ) * 0.05 },
     none)

/-- `_interpolate_downward`. -/
def interpolateDownward : MotionFn := fun keyframes progress _ =>
  let base := (headKf keyframes).right_hand
  ((castPose base).map fun a => { a with y := a.y + (progress : ℝ) * 0.15 }, none)

/-- `_interpolate_rising`. -/
def interpolateRising : MotionFn := fun keyframes progress _ =>
  if 2 ≤ keyframes.length then
    let start := (headKf keyframes).right_hand
    let finish := ((keyframes.getD 1 (headKf keyframes))).right_hand
    (castPose (interpolateLandmarks start finish progress), none)
  else
    let base := (headKf keyframes).right_hand
    ((castPose base).map fun a => { a with y := a.y - (progress : ℝ) * 0.15 }, none)

/-- `_interpolate_opening`. -/
def interpolateOpening : MotionFn := fun keyframes progress _ =>
  let base := (headKf keyframes).right_hand
  let rotation := (progress : ℝ) * 0.1
  ((castPose base).map fun a =>
    { a with x := a.x + rotation, z := a.z - rotation * 0.5 }, none)

/-- `_interpolate_closing` (fingers pulled toward `center_x = 0.5`). -/
def interpolateClosing : MotionFn := fun keyframes progress _ =>
  let base := (headKf keyframes).right_hand
  let closeAmount := (progress : ℝ) * 0.05
  ((castPose base).map fun a =>
    { a with x := a.x + (0.5 - a.x) * closeAmount, z := a.z + closeAmount },
   none)

open Real in
/-- `_interpolate_wiggling`: per-landmark phase offset. -/
def interpolateWiggling : MotionFn := fun keyframes progress _ =>
  let base := (headKf keyframes).right_hand
  ((castPose base).mapIdx fun i a =>
    { a with x := a.x + sin ((progress : ℝ) * π * 6 + (i : ℝ) * 0.5) * 0.02 },
   none)

open Real in
/-- `_interpolate_tapping` (mirrored to the left hand when two-handed). -/
def interpolateTapping : MotionFn := fun keyframes progress sd =>
  let base := (headKf keyframes).right_hand
  let tap := |sin ((progress : ℝ) * π * 4)| * 0.03
  let modified := (castPose base).map fun a =>
    { a with y := a.y + tap, z := a.z - tap }
  (modified, if sd.two_hands then some modified else none)

open Real in
/-- `_interpolate_brushing`. -/
def interpolateBrushing : MotionFn := fun keyframes progress _ =>
  let base := (headKf keyframes).right_hand
  let brush := sin ((progress : ℝ) * π * 2) * 0.08
  ((castPose base).map fun a => { a with x := a.x + brush }, none)

open Real in
/-- `_interpolate_rocking`. -/
def interpolateRocking : MotionFn := fun keyframes progress sd =>
  let base := (headKf keyframes).right_hand
  let rock := sin ((progress : ℝ) * π * 4) * 0.04
  let modified := (castPose base).map fun a =>
    { a with y := a.y + rock, z := a.z + rock * 0.5 }
  (modified, if sd.two_hands then some modified else none)

open Real in
/-- `_interpolate_alternating`: mirrored hands in opposite directions. -/
def interpolateAlternating : MotionFn := fun keyframes progress _ =>
  let base := (headKf keyframes).right_hand
  let alt := sin ((progress : ℝ) * π * 4) * 0.05
  ((castPose base).map fun a => { a with y := a.y + alt },
   some ((castPose base).map fun a =>
     { a with x := 1 - a.x, y := a.y - alt }))

open Real in
/-- `_interpolate_swimming`. -/
def interpolateSwimming : MotionFn := fun keyframes progress _ =>
  let base := (headKf keyframes).right_hand
  let swim := sin ((progress : ℝ) * π * 6) * 0.05
  let forward := (progress : ℝ) * 0.1
  ((castPose base).map fun a =>
    { a with x := a.x + forward, y := a.y + swim }, none)

open Real in
/-- `_interpolate_flapping` (only finger landmarks `i ≥ 5` move). -/
def interpolateFlapping : MotionFn := fun keyframes progress _ =>
  let base := (headKf keyframes).right_hand
  let flap := |sin ((progress : ℝ) * π * 6)| * 0.04
  ((castPose base).mapIdx fun i a =>
    if 5 ≤ i then { a with y := a.y - flap } else a, none)

open Real in
/-- `_interpolate_squeezing`. -/
def interpolateSqueezing : MotionFn := fun keyframes progress _ =>
  let base := (headKf keyframes).right_hand
  let squeeze := sin ((progress : ℝ) * π * 4) * 0.02
  ((castPose base).map fun a => { a with z := a.z + squeeze }, none)

open Real in
/-- `_interpolate_patting`. -/
def interpolatePatting : MotionFn := fun keyframes progress sd =>
  let base := (headKf keyframes).right_hand
  let pat := |sin ((progress : ℝ) * π * 4)| * 0.05
  let modified := (castPose base).map fun a => { a with y := a.y + pat }
  (modified, if sd.two_hands then some modified else none)

/-- `_interpolate_pointing` (shared by the three pointing motion tags). -/
def interpolatePointing : MotionFn := fun keyframes progress _ =>
  let base := (headKf keyframes).right_hand
  let thrust := (progress : ℝ) * 0.05
  ((castPose base).map fun a => { a with z := a.z - thrust }, none)

open Real in
/-- `_interpolate_open_close` (thumb tip `i = 4` and index tip `i = 8`). -/
def interpolateOpenClose : MotionFn := fun keyframes progress _ =>
  let base := (headKf keyframes).right_hand
  let oc := |sin ((progress : ℝ) * π * 4)| * 0.03
  ((castPose base).mapIdx fun i a =>
    if i = 4 ∨ i = 8 then
      { a with y := if i = 8 then a.y - oc else a.y + oc }
    else a, none)

/-- `_interpolate_across`. -/
def interpolateAcross : MotionFn := fun keyframes progress _ =>
  let base := (headKf keyframes).right_hand
  ((castPose base).map fun a => { a with x := a.x + (progress : ℝ) * 0.15 }, none)

open Real in
/-- `_interpolate_sliding`. -/
def interpolateSliding : MotionFn := fun keyframes progress sd =>
  let base := (headKf keyframes).right_hand
  let slide := sin ((progress : ℝ) * π * 2) * 0.08
  let modified := (castPose base).map fun a => { a with y := a.y + slide }
  (modified, if sd.two_hands then some modified else none)

/-- `_interpolate_passing` (two hands crossing). -/
def interpolatePassing : MotionFn := fun keyframes progress _ =>
  let base := (headKf keyframes).right_hand
  let passAmt := (progress : ℝ) * 0.15
  ((castPose base).map fun a => { a with x := a.x + passAmt },
   some ((castPose base).map fun a => { a with x := 1 - a.x - passAmt }))

/-- `_interpolate_expanding` (two hands spreading). -/
def interpolateExpanding : MotionFn := fun keyframes progress _ =>
  let base := (headKf keyframes).right_hand
  let expand := (progress : ℝ) * 0.12
  ((castPose base).map fun a => { a with x := a.x + expand },
   some ((castPose base).map fun a => { a with x := 1 - a.x - expand }))

open Real in
/-- `_interpolate_touching`. -/
def interpolateTouching : MotionFn := fun keyframes progress _ =>
  let base := (headKf keyframes).right_hand
  let touch := sin ((progress : ℝ) * π) * 0.05
  ((castPose base).map fun a => { a with z := a.z + touch }, none)

open Real in
/-- `_interpolate_twisting`: rotation about the pose centroid
(`sum / len`; an empty pose never reaches this function in the pipeline,
and Lean's total division by zero stands in for Python's error there). -/
def interpolateTwisting : MotionFn := fun keyframes progress _ =>
  let base := (headKf keyframes).right_hand
  let twist := sin ((progress : ℝ) * π * 2) * 0.04
  let cx : ℝ := ((base.map fun a => a.x).sum : ℚ) / (base.length : ℝ)
  let cy : ℝ := ((base.map fun a => a.y).sum : ℚ) / (base.length : ℝ)
  ((castPose base).map fun a =>
    let dx := a.x - cx
    let dy := a.y - cy
    { a with x := cx + dx * cos twist - dy * sin twist,
             y := cy + dx * sin twist + dy * cos twist },
   none)

open Real in
/-- `_interpolate_questioning`. -/
def interpolateQuestioning : MotionFn := fun keyframes progress _ =>
  let base := (headKf keyframes).right_hand
  let question := sin ((progress : ℝ) * π * 2) * 0.05
  ((castPose base).map fun a =>
    { a with x := a.x + question, y := a.y - question * 0.5 }, none)

open Real in
/-- `_interpolate_cradling` (two mirrored hands). -/
def interpolateCradling : MotionFn := fun keyframes progress _ =>
  let base := (headKf keyframes).right_hand
  let cradle := sin ((progress : ℝ) * π * 2) * 0.04
  ((castPose base).map fun a => { a with y := a.y + cradle },
   some ((castPose base).map fun a => { a with x := 1 - a.x, y := a.y - cradle }))

/-- `_interpolate_resting` (copy of the pose). -/
def interpolateResting : MotionFn := fun keyframes _ sd =>
  let base := (headKf keyframes).right_hand
  let modified := castPose base
  (modified, if sd.two_hands then some modified else none)

/-- `_interpolate_box`: 4-segment box pattern
(`segment = int(progress*4) % 4`, `seg_progress = (progress*4) % 1`). -/
def interpolateBox : MotionFn := fun keyframes progress _ =>
  let base := (headKf keyframes).right_hand
  let segment := (⌊progress * 4⌋ % 4).toNat
  let segProgress := progress * 4 - ⌊progress * 4⌋
  let offsets : List (ℚ × ℚ) := [(0, 0.1), (0.1, 0), (0, -0.1), (-0.1, 0)]
  let o := offsets.getD segment (0, 0)
  let ox := o.1 * segProgress
  let oy := o.2 * segProgress
  ((castPose base).map fun a => { a with x := a.x + (ox : ℝ), y := a.y + (oy : ℝ) },
   some ((castPose base).map fun a =>
     { a with x := 1 - a.x - (ox : ℝ), y := a.y + (oy : ℝ) }))

/-- `self.motion_patterns`: the motion-type-indexed function table. -/
def motionPatterns : List (String × MotionFn) :=
  [("static", interpolateStatic), ("wave", interpolateWave),
   ("circular", interpolateCircular), ("outward", interpolateOutward),
   ("downward", interpolateDownward), ("rising", interpolateRising),
   ("opening", interpolateOpening), ("closing", interpolateClosing),
   ("wiggling", interpolateWiggling), ("tapping", interpolateTapping),
   ("brushing", interpolateBrushing), ("rocking", interpolateRocking),
   ("alternating", interpolateAlternating), ("swimming", interpolateSwimming),
   ("flapping", interpolateFlapping), ("squeezing", interpolateSqueezing),
   ("patting", interpolatePatting), ("pointing_out", interpolatePointing),
   ("pointing_side", interpolatePointing), ("pointing_down", interpolatePointing),
   ("opening_closing", interpolateOpenClose), ("across", interpolateAcross),
   ("sliding", interpolateSliding), ("passing", interpolatePassing),
   ("expanding", interpolateExpanding), ("touching", interpolateTouching),
   ("twisting", interpolateTwisting), ("questioning", interpolateQuestioning),
   ("cradling", interpolateCradling), ("resting", interpolateResting),
   ("box_shape", interpolateBox)]

open Real in
/-- `_interpolate_body_posture` (sinusoidal shoulder variation). -/
def interpolateBodyPosture (posture : BodyPosture) (progress : ℚ) : BodyFrame :=
  { shoulder_rotation :=
      (posture.shoulder_rotation : ℝ) + sin ((progress : ℝ) * π * 2) * 0.02,
    torso_tilt := posture.torso_tilt, head_tilt := posture.head_tilt }

/-- One generated animation frame. -/
structure Frame where
  frame_number : ℕ
  total_frames : ℕ
  timestamp : ℚ
  progress : ℚ
  sign : String
  right_hand : List RLandmark
  left_hand : Option (List RLandmark)
  facial_expression : FacialExpr
  body_posture : BodyFrame
  motion_type : String
  two_hands : Bool

/-- The neutral facial expression (`self.facial_expressions['neutral']`);
the inner fallback of the `getD` chain never fires. -/
def neutralFacial : FacialExpr :=
  (facialExpressions.lookup "neutral").getD ⟨0, "closed", "open"⟩

/-- The neutral body posture (`self.body_postures['neutral']`). -/
def neutralPosture : BodyPosture :=
  (bodyPostures.lookup "neutral").getD ⟨0, 0, 0⟩

/-- `_generate_sign_frames`: all frames of one sign. -/
def generateSignFrames (signName : String) (signData : SignData)
    (duration startTime : ℤ) : List Frame :=
  let totalFrames := signTotalFrames duration
  let interpolateFn :=
    (motionPatterns.lookup signData.motion_type).getD interpolateStatic
  let keyframes :=
    if signData.keyframes.isEmpty then
      [⟨0, createBaseHand 0.5 0.5, none⟩]
    else signData.keyframes
  let facialData :=
    (facialExpressions.lookup signData.facial_expression).getD neutralFacial
  let bodyPosture :=
    (bodyPostures.lookup signData.body_region).getD neutralPosture
  (List.range totalFrames).map fun (frameNum : ℕ) =>
    let progress : ℚ := (frameNum : ℚ) / ((max (totalFrames - 1) 1 : ℕ) : ℚ)
    let easedProgress := easeInOutCubic progress
    let hands := interpolateFn keyframes easedProgress signData
    { frame_number := frameNum, total_frames := totalFrames,
      timestamp := (startTime : ℚ) + (frameNum : ℚ) * 1000 / (animFps : ℚ),
      progress := easedProgress, sign := signName,
      right_hand := hands.1, left_hand := hands.2,
      facial_expression := interpolateFacial facialData easedProgress,
      body_posture := interpolateBodyPosture bodyPosture easedProgress,
      motion_type := signData.motion_type, two_hands := signData.two_hands }

/-- `_generate_transition_frames`: the fixed 300 ms blend between the last
keyframe of one sign and the first keyframe of the next. -/
def generateTransitionFrames (fromSign toSign : SignData)
    (startTime : ℤ) : List Frame :=
  let totalFrames := transitionTotalFrames
  let fromHand :=
    (fromSign.keyframes.getLast?.map fun kf => kf.right_hand).getD
      (createBaseHand 0.5 0.5)
  let toHand :=
    (toSign.keyframes.head?.map fun kf => kf.right_hand).getD
      (createBaseHand 0.5 0.5)
  (List.range totalFrames).map fun (frameNum : ℕ) =>
    let progress : ℚ := (frameNum : ℚ) / ((max (totalFrames - 1) 1 : ℕ) : ℚ)
    let eased := easeInOutCubic progress
    { frame_number := frameNum, total_frames := totalFrames,
      timestamp := (startTime : ℚ) + (frameNum : ℚ) * 1000 / (animFps : ℚ),
      progress := eased, sign := "transition",
      right_hand := castPose (interpolateLandmarks fromHand toHand eased),
      left_hand := none,
      facial_expression := neutralFacial,
      body_posture := ⟨(neutralPosture.shoulder_rotation : ℝ),
                       neutralPosture.torso_tilt, neutralPosture.head_tilt⟩,
      motion_type := "transition", two_hands := false }

/-- The loop of `generate_animation_sequence`, with the running time,
frame-count accumulator and transition insertion made explicit; returns
`(frames, schedule, final current_time)`. -/
def genLoop : List String → ℤ → ℕ → List Frame × List ScheduleEntry × ℤ
  | [], currentTime, _ => ([], [], currentTime)
  | signName :: rest, currentTime, frameStart =>
    let signData := getSign signName
    let duration := calculateSignDuration signData
    let signFrames := generateSignFrames signName signData duration currentTime
    let entry : ScheduleEntry :=
      { sign := signName, start_time := currentTime,
        end_time := currentTime + duration, duration := duration,
        frame_start := frameStart, frame_count := signFrames.length }
    match rest with
    | [] => (signFrames, [entry], currentTime + duration)
    | next :: _ =>
      let transFrames :=
        generateTransitionFrames signData (getSign next)
          (currentTime + duration)
      let r := genLoop rest (currentTime + duration + animTransitionDuration)
        (frameStart + signFrames.length + transFrames.length)
      (signFrames ++ transFrames ++ r.1, entry :: r.2.1, r.2.2)

/-- The result of `generate_animation_sequence`. -/
structure AnimationData where
  signs : List String
  total_duration : ℤ
  frames : List Frame
  schedule : List ScheduleEntry

/-- `AnimationGenerator.generate_animation_sequence`. -/
def generateAnimationSequence (islSigns : List String) : AnimationData :=
  let r := genLoop islSigns 0 0
  { signs := islSigns, total_duration := r.2.2,
    frames := r.1, schedule := r.2.1 }

/-- A junk frame used only as the default of list indexing in statements. -/
def emptyFrame : Frame :=
  { frame_number := 0, total_frames := 0, timestamp := 0, progress := 0,
    sign := "", right_hand := [], left_hand := none,
    facial_expression := neutralFacial, body_posture := ⟨0, 0, 0⟩,
    motion_type := "", two_hands := false }

open Real in
/-- The hand pose claim C1 predicts for a wave-motion frame: the wave
deformation layered on top of the keyframe-interpolated base pose.  This
definition follows the specification's words (not the code) and exists
only to be compared against the code's actual frames. -/
def specLayeredWavePose (keyframes : List Keyframe) (eased : ℚ) :
    List RLandmark :=
  let base := interpolateLandmarks (headKf keyframes).right_hand
    ((keyframes.getD 1 (headKf keyframes)).right_hand) eased
  (castPose base).map fun a =>
    { a with x := a.x + sin ((eased : ℝ) * π * 4) * 0.05 }

end


/-! ## Verification lemmas -/


lemma pyInt_intCast (n : ℤ) : pyInt ((n : ℚ)) = n := by
  unfold pyInt
  split_ifs <;> simp

lemma calculateSignDuration_dvd (sd : SignData) :
    100 ∣ calculateSignDuration sd := by
  unfold calculateSignDuration animDefaultSignDuration animMinSignDuration animMaxSignDuration
  split_ifs <;> decide

lemma calculateSignDuration_bounds (sd : SignData) :
    800 ≤ calculateSignDuration sd ∧ calculateSignDuration sd ≤ 2500 := by
  unfold calculateSignDuration animDefaultSignDuration animMinSignDuration animMaxSignDuration
  split_ifs <;> exact ⟨by decide, by decide⟩

lemma calculateSignDuration_spec (sd : SignData) :
    ∃ k : ℤ, calculateSignDuration sd = 100 * k ∧ 8 ≤ k ∧ k ≤ 25 := by
  obtain ⟨k, hk⟩ := calculateSignDuration_dvd sd
  obtain ⟨h1, h2⟩ := calculateSignDuration_bounds sd
  exact ⟨k, hk, by omega, by omega⟩

lemma signTotalFrames_eq (k : ℤ) (hk : 8 ≤ k) :
    signTotalFrames (100 * k) = (3 * k).toNat := by
  unfold signTotalFrames
  have h1 : ((100 * k : ℤ) : ℚ) / 1000 * (animFps : ℚ) = ((3 * k : ℤ) : ℚ) := by
    unfold animFps
    push_cast
    ring
  rw [h1, pyInt_intCast]
  omega

lemma signTotalFrames_pos (k : ℤ) (hk : 8 ≤ k) :
    0 < signTotalFrames (100 * k) := by
  rw [signTotalFrames_eq k hk]
  omega

lemma signTotalFrames_cast (k : ℤ) (hk : 8 ≤ k) :
    ((signTotalFrames (100 * k) : ℕ) : ℚ) = 3 * (k : ℚ) := by
  rw [signTotalFrames_eq k hk]
  have h : ((3 * k).toNat : ℤ) = 3 * k := by omega
  have h2 : (((3 * k).toNat : ℤ) : ℚ) = ((3 * k : ℤ) : ℚ) := by rw [h]
  push_cast at h2
  linarith

lemma transitionTotalFrames_eq : transitionTotalFrames = 9 := by
  unfold transitionTotalFrames
  have h : ((animTransitionDuration : ℤ) : ℚ) / 1000 * ((animFps : ℤ) : ℚ)
      = ((9 : ℤ) : ℚ) := by
    norm_num [animTransitionDuration, animFps]
  rw [h, pyInt_intCast]
  decide

lemma animFps_cast : ((animFps : ℤ) : ℚ) = 30 := by
  norm_num [animFps]

lemma range_map_head? (nn : ℕ) (h : 0 < nn) (g : ℕ → ℚ) :
    ((List.range nn).map g).head? = some (g 0) := by
  obtain ⟨m, rfl⟩ : ∃ m, nn = m + 1 := ⟨nn - 1, by omega⟩
  rw [List.range_succ_eq_map]
  simp

lemma range_map_getLast? (nn : ℕ) (h : 0 < nn) (g : ℕ → ℚ) :
    ((List.range nn).map g).getLast? = some (g (nn - 1)) := by
  obtain ⟨m, rfl⟩ : ∃ m, nn = m + 1 := ⟨nn - 1, by omega⟩
  rw [List.range_succ, List.map_append]
  simp

lemma chain'_map_range (nn : ℕ) (R : ℚ → ℚ → Prop) (g : ℕ → ℚ)
    (hstep : ∀ m, m + 1 < nn → R (g m) (g (m + 1))) :
    List.Chain' R ((List.range nn).map g) := by
  rw [List.chain'_map]
  cases nn with
  | zero => simp
  | succ m =>
    rw [List.chain'_range_succ]
    intro i hi
    exact hstep i (by omega)

lemma tsChain_lt (nn : ℕ) (c : ℚ) :
    List.Chain' (· < ·) ((List.range nn).map
      (fun (f : ℕ) => c + (f : ℚ) * 1000 / (animFps : ℚ))) := by
  apply chain'_map_range
  intro m _
  rw [animFps_cast]
  have : ((m : ℚ)) < (((m + 1 : ℕ)) : ℚ) := by push_cast; linarith
  have h30 : (0 : ℚ) < 30 := by norm_num
  calc c + (m : ℚ) * 1000 / 30 < c + (((m + 1 : ℕ)) : ℚ) * 1000 / 30 := by
        push_cast
        linarith

lemma tsChain_step (nn : ℕ) (c : ℚ) :
    List.Chain' (fun a b => b = a + 1000 / 30) ((List.range nn).map
      (fun (f : ℕ) => c + (f : ℚ) * 1000 / (animFps : ℚ))) := by
  apply chain'_map_range
  intro m _
  rw [animFps_cast]
  push_cast
  ring



lemma generateSignFrames_map_timestamp (n : String) (sd : SignData) (d t : ℤ) :
    (generateSignFrames n sd d t).map (fun fr => fr.timestamp)
      = (List.range (signTotalFrames d)).map
          (fun (f : ℕ) => (t : ℚ) + (f : ℚ) * 1000 / (animFps : ℚ)) := by
  unfold generateSignFrames
  rw [List.map_map]
  rfl

lemma generateTransitionFrames_map_timestamp (a b : SignData) (t : ℤ) :
    (generateTransitionFrames a b t).map (fun fr => fr.timestamp)
      = (List.range transitionTotalFrames).map
          (fun (f : ℕ) => (t : ℚ) + (f : ℚ) * 1000 / (animFps : ℚ)) := by
  unfold generateTransitionFrames
  rw [List.map_map]
  rfl



lemma genLoop_single (s : String) (t : ℤ) (fs : ℕ) :
    genLoop [s] t fs =
      (generateSignFrames s (getSign s) (calculateSignDuration (getSign s)) t,
       [{ sign := s, start_time := t,
          end_time := t + calculateSignDuration (getSign s),
          duration := calculateSignDuration (getSign s),
          frame_start := fs,
          frame_count := (generateSignFrames s (getSign s)
            (calculateSignDuration (getSign s)) t).length }],
       t + calculateSignDuration (getSign s)) := rfl

lemma genLoop_cons (s s2 : String) (rest : List String) (t : ℤ) (fs : ℕ) :
    genLoop (s :: s2 :: rest) t fs =
      (generateSignFrames s (getSign s) (calculateSignDuration (getSign s)) t
        ++ generateTransitionFrames (getSign s) (getSign s2)
             (t + calculateSignDuration (getSign s))
        ++ (genLoop (s2 :: rest)
             (t + calculateSignDuration (getSign s) + animTransitionDuration)
             (fs + (generateSignFrames s (getSign s)
                     (calculateSignDuration (getSign s)) t).length
                 + (generateTransitionFrames (getSign s) (getSign s2)
                     (t + calculateSignDuration (getSign s))).length)).1,
       { sign := s, start_time := t,
         end_time := t + calculateSignDuration (getSign s),
         duration := calculateSignDuration (getSign s),
         frame_start := fs,
         frame_count := (generateSignFrames s (getSign s)
           (calculateSignDuration (getSign s)) t).length } ::
         (genLoop (s2 :: rest)
           (t + calculateSignDuration (getSign s) + animTransitionDuration)
           (fs + (generateSignFrames s (getSign s)
                   (calculateSignDuration (getSign s)) t).length
               + (generateTransitionFrames (getSign s) (getSign s2)
                   (t + calculateSignDuration (getSign s))).length)).2.1,
       (genLoop (s2 :: rest)
         (t + calculateSignDuration (getSign s) + animTransitionDuration)
         (fs + (generateSignFrames s (getSign s)
                 (calculateSignDuration (getSign s)) t).length
             + (generateTransitionFrames (getSign s) (getSign s2)
                 (t + calculateSignDuration (getSign s))).length)).2.2) := rfl

lemma genLoop_spec :
    ∀ (tokens : List String) (t : ℤ) (fs : ℕ), tokens ≠ [] →
    (genLoop tokens t fs).2.2 =
        t + (tokens.map fun s => calculateSignDuration (getSign s)).sum
          + ((tokens.length : ℤ) - 1) * animTransitionDuration
    ∧ (genLoop tokens t fs).2.1.length = tokens.length
    ∧ ((genLoop tokens t fs).2.1.head?.map fun e => e.start_time) = some t
    ∧ ((genLoop tokens t fs).2.1.getLast?.map fun e => e.end_time)
        = some (genLoop tokens t fs).2.2
    ∧ List.Chain'
        (fun e1 e2 => e1.end_time + animTransitionDuration = e2.start_time)
        (genLoop tokens t fs).2.1
    ∧ ((genLoop tokens t fs).1.map fun fr => fr.timestamp).head?
        = some ((t : ℚ))
    ∧ ((genLoop tokens t fs).1.map fun fr => fr.timestamp).getLast?
        = some (((genLoop tokens t fs).2.2 : ℚ) - 1000 / 30)
    ∧ List.Chain' (· < ·)
        ((genLoop tokens t fs).1.map fun fr => fr.timestamp) := by
  intro tokens
  induction tokens with
  | nil => exact fun t fs h => absurd rfl h
  | cons s rest ih =>
    intro t fs _
    obtain ⟨k, hk, hk8, _⟩ := calculateSignDuration_spec (getSign s)
    have htf_pos : 0 < signTotalFrames (calculateSignDuration (getSign s)) := by
      rw [hk]; exact signTotalFrames_pos k hk8
    have htf_cast :
        ((signTotalFrames (calculateSignDuration (getSign s)) : ℕ) : ℚ)
          = 3 * (k : ℚ) := by
      rw [hk]; exact signTotalFrames_cast k hk8
    have hdq : ((calculateSignDuration (getSign s) : ℤ) : ℚ) = 100 * (k : ℚ) := by
      exact_mod_cast congrArg (fun z : ℤ => (z : ℚ)) hk
    have hts_sf := generateSignFrames_map_timestamp s (getSign s)
      (calculateSignDuration (getSign s)) t
    have hsf_ne :
        ((generateSignFrames s (getSign s) (calculateSignDuration (getSign s)) t).map
          fun fr => fr.timestamp) ≠ [] := by
      rw [hts_sf]
      simp [htf_pos.ne']
    have hone : 1 ≤ signTotalFrames (calculateSignDuration (getSign s)) := htf_pos
    have hlast_sf :
        ((generateSignFrames s (getSign s) (calculateSignDuration (getSign s)) t).map
          fun fr => fr.timestamp).getLast?
        = some (((t + calculateSignDuration (getSign s) : ℤ) : ℚ) - 1000 / 30) := by
      rw [hts_sf, range_map_getLast? _ htf_pos]
      congr 1
      rw [animFps_cast]
      have hcast :
          (((signTotalFrames (calculateSignDuration (getSign s)) - 1 : ℕ)) : ℚ)
          = ((signTotalFrames (calculateSignDuration (getSign s)) : ℕ) : ℚ) - 1 := by
        push_cast [Nat.cast_sub hone]
        ring
      rw [hcast, htf_cast]
      push_cast [hdq]
      ring
    have hhead_sf :
        ((generateSignFrames s (getSign s) (calculateSignDuration (getSign s)) t).map
          fun fr => fr.timestamp).head? = some ((t : ℚ)) := by
      rw [hts_sf, range_map_head? _ htf_pos]
      norm_num
    have hchain_sf :
        List.Chain' (· < ·)
          ((generateSignFrames s (getSign s) (calculateSignDuration (getSign s)) t).map
            fun fr => fr.timestamp) := by
      rw [hts_sf]
      exact tsChain_lt _ _
    cases rest with
    | nil =>
      rw [genLoop_single]
      exact ⟨by simp, by simp, by simp, by simp, by simp,
        hhead_sf, hlast_sf, hchain_sf⟩
    | cons s2 rest2 =>
      have ihh := ih (t + calculateSignDuration (getSign s) + animTransitionDuration)
        (fs + (generateSignFrames s (getSign s)
                (calculateSignDuration (getSign s)) t).length
            + (generateTransitionFrames (getSign s) (getSign s2)
                (t + calculateSignDuration (getSign s))).length)
        (by simp)
      obtain ⟨ih1, ih2, ih3, ih4, ih5, ih6, ih7, ih8⟩ := ihh
      rw [genLoop_cons]
      have hrf_ne :
          ((genLoop (s2 :: rest2)
            (t + calculateSignDuration (getSign s) + animTransitionDuration)
            (fs + (generateSignFrames s (getSign s)
                    (calculateSignDuration (getSign s)) t).length
                + (generateTransitionFrames (getSign s) (getSign s2)
                    (t + calculateSignDuration (getSign s))).length)).1.map
            fun fr => fr.timestamp) ≠ [] := by
        intro h0
        rw [h0] at ih6
        simp at ih6
      have hts_tf := generateTransitionFrames_map_timestamp (getSign s) (getSign s2)
        (t + calculateSignDuration (getSign s))
      have htf9 : (0 : ℕ) < transitionTotalFrames := by
        rw [transitionTotalFrames_eq]; omega
      have htff_ne :
          ((generateTransitionFrames (getSign s) (getSign s2)
            (t + calculateSignDuration (getSign s))).map
            fun fr => fr.timestamp) ≠ [] := by
        rw [hts_tf]
        simp [htf9.ne']
      have hhead_tff :
          ((generateTransitionFrames (getSign s) (getSign s2)
            (t + calculateSignDuration (getSign s))).map
            fun fr => fr.timestamp).head?
          = some (((t + calculateSignDuration (getSign s) : ℤ) : ℚ)) := by
        rw [hts_tf, range_map_head? _ htf9]
        norm_num
      have hlast_tff :
          ((generateTransitionFrames (getSign s) (getSign s2)
            (t + calculateSignDuration (getSign s))).map
            fun fr => fr.timestamp).getLast?
          = some (((t + calculateSignDuration (getSign s) : ℤ) : ℚ) + 800 / 3) := by
        rw [hts_tf, range_map_getLast? _ htf9, transitionTotalFrames_eq, animFps_cast]
        norm_num
      have hchain_tff :
          List.Chain' (· < ·)
            ((generateTransitionFrames (getSign s) (getSign s2)
              (t + calculateSignDuration (getSign s))).map
              fun fr => fr.timestamp) := by
        rw [hts_tf]
        exact tsChain_lt _ _
      refine ⟨?_, ?_, ?_, ?_, ?_, ?_, ?_, ?_⟩
      · show (genLoop (s2 :: rest2) _ _).2.2 = _
        rw [ih1]
        simp only [List.map_cons, List.sum_cons, List.length_cons]
        push_cast
        ring
      · simp [ih2]
      · simp
      · show ((_ :: (genLoop (s2 :: rest2) _ _).2.1).getLast?.map
          fun e => e.end_time) = _
        cases hsched : (genLoop (s2 :: rest2)
            (t + calculateSignDuration (getSign s) + animTransitionDuration)
            (fs + (generateSignFrames s (getSign s)
                    (calculateSignDuration (getSign s)) t).length
                + (generateTransitionFrames (getSign s) (getSign s2)
                    (t + calculateSignDuration (getSign s))).length)).2.1 with
        | nil =>
          rw [hsched] at ih2
          simp at ih2
        | cons e es =>
          rw [hsched] at ih4
          rw [List.getLast?_cons_cons]
          exact ih4
      · apply List.chain'_cons'.mpr
        refine ⟨?_, ih5⟩
        intro y hy
        rw [Option.mem_def] at hy
        rw [hy] at ih3
        simp only [Option.map_some', Option.some_inj] at ih3
        simp [ih3]
      · rw [List.map_append, List.map_append]
        rw [List.head?_append_of_ne_nil _
          (fun h0 => hsf_ne (List.append_eq_nil.mp h0).1)]
        rw [List.head?_append_of_ne_nil _ hsf_ne]
        exact hhead_sf
      · rw [List.map_append, List.map_append]
        rw [List.getLast?_append_of_ne_nil _ hrf_ne]
        exact ih7
      · rw [List.map_append, List.map_append]
        apply List.chain'_append.mpr
        refine ⟨?_, ih8, ?_⟩
        · apply List.chain'_append.mpr
          refine ⟨hchain_sf, hchain_tff, ?_⟩
          intro x hx y hy
          rw [Option.mem_def] at hx hy
          rw [hlast_sf] at hx
          rw [hhead_tff] at hy
          simp only [Option.some_inj] at hx hy
          subst hx
          subst hy
          have h30 : (0 : ℚ) < 1000 / 30 := by norm_num
          linarith
        · intro x hx y hy
          rw [Option.mem_def] at hx hy
          rw [List.getLast?_append_of_ne_nil _ htff_ne] at hx
          rw [hlast_tff] at hx
          rw [ih6] at hy
          simp only [Option.some_inj] at hx hy
          subst hx
          subst hy
          push_cast
          norm_num [animTransitionDuration]



/-! ## Claim theorems (C5, C6, C7, C9) -/


lemma getLm_map_range (l : HandPose) :
    (List.range l.length).map (fun i => getLm l i) = l := by
  induction l with
  | nil => simp
  | cons x xs ih =>
    rw [List.length_cons, List.range_succ_eq_map, List.map_cons, List.map_map]
    have hcomp : ((fun i => getLm (x :: xs) i) ∘ Nat.succ) = fun i => getLm xs i :=
      funext fun i => rfl
    rw [hcomp, ih]
    rfl

lemma getSign_of_lookup (token : String) (s : SignData)
    (h : buildSignDatabase.lookup token = some s) : getSign token = s := by
  unfold getSign
  rw [h]
  rfl

set_option maxRecDepth 10000 in
/-- C5: every token of the published vocabulary resolves in the sign
dictionary (no fallback) to a definition with 1 or 2 keyframes whose hand
poses all have exactly 21 landmarks. -/
theorem vocabulary_signs_well_formed :
    ∀ token ∈ dbClassLabels, ∃ s, buildSignDatabase.lookup token = some s ∧
      getSign token = s ∧
      (s.keyframes.length = 1 ∨ s.keyframes.length = 2) ∧
      ∀ kf ∈ s.keyframes, kf.right_hand.length = 21 ∧
        ∀ lh ∈ kf.left_hand, lh.length = 21 := by
  have hdec : ∀ token ∈ dbClassLabels, ∃ s,
      buildSignDatabase.lookup token = some s ∧
      (s.keyframes.length = 1 ∨ s.keyframes.length = 2) ∧
      ∀ kf ∈ s.keyframes, kf.right_hand.length = 21 ∧
        ∀ lh ∈ kf.left_hand, lh.length = 21 := by decide
  intro token htok
  obtain ⟨s, hs, hshape⟩ := hdec token htok
  exact ⟨s, hs, getSign_of_lookup token s hs, hshape⟩

set_option maxRecDepth 10000 in
/-- C5 witness at the vocabulary token `Hello`. -/
theorem vocabulary_signs_well_formed_witness :
    "Hello" ∈ dbClassLabels ∧ ∃ s, buildSignDatabase.lookup "Hello" = some s ∧
      getSign "Hello" = s ∧
      (s.keyframes.length = 1 ∨ s.keyframes.length = 2) ∧
      ∀ kf ∈ s.keyframes, kf.right_hand.length = 21 ∧
        ∀ lh ∈ kf.left_hand, lh.length = 21 :=
  ⟨by decide, vocabulary_signs_well_formed "Hello" (by decide)⟩

/-- C6: for equal-length hand poses the interpolation primitive returns
the start pose exactly at progress 0 and the end pose exactly at
progress 1 (component-wise `start + (end - start) * progress`). -/
theorem interpolateLandmarks_boundary (a b : HandPose) (h : a.length = b.length) :
    interpolateLandmarks a b 0 = a ∧ interpolateLandmarks a b 1 = b := by
  constructor
  · unfold interpolateLandmarks
    have hmin : min a.length b.length = a.length := by rw [h]; exact min_self _
    rw [hmin]
    conv_rhs => rw [← getLm_map_range a]
    apply List.map_congr_left
    intro i _
    refine Landmark.ext ?_ ?_ ?_
    · show (getLm a i).x + ((getLm b i).x - (getLm a i).x) * 0 = (getLm a i).x
      ring
    · show (getLm a i).y + ((getLm b i).y - (getLm a i).y) * 0 = (getLm a i).y
      ring
    · show (getLm a i).z + ((getLm b i).z - (getLm a i).z) * 0 = (getLm a i).z
      ring
  · unfold interpolateLandmarks
    have hmin : min a.length b.length = b.length := by rw [h]; exact min_self _
    rw [hmin]
    conv_rhs => rw [← getLm_map_range b]
    apply List.map_congr_left
    intro i _
    refine Landmark.ext ?_ ?_ ?_
    · show (getLm a i).x + ((getLm b i).x - (getLm a i).x) * 1 = (getLm b i).x
      ring
    · show (getLm a i).y + ((getLm b i).y - (getLm a i).y) * 1 = (getLm b i).y
      ring
    · show (getLm a i).z + ((getLm b i).z - (getLm a i).z) * 1 = (getLm b i).z
      ring

/-- C6 witness at two concrete 2-landmark poses. -/
theorem interpolateLandmarks_boundary_witness :
    interpolateLandmarks [lmk 0 0 0, lmk 1 2 3] [lmk 4 5 6, lmk 7 8 9] 0
        = [lmk 0 0 0, lmk 1 2 3]
    ∧ interpolateLandmarks [lmk 0 0 0, lmk 1 2 3] [lmk 4 5 6, lmk 7 8 9] 1
        = [lmk 4 5 6, lmk 7 8 9] :=
  interpolateLandmarks_boundary [lmk 0 0 0, lmk 1 2 3] [lmk 4 5 6, lmk 7 8 9] rfl

/-- C7: a token absent from the sign dictionary resolves, without raising,
to the fallback `Unknown` definition: static motion, neutral body region,
question facial expression. -/
theorem getSign_fallback (token : String)
    (h : buildSignDatabase.lookup token = none) :
    getSign token = defaultSign ∧ defaultSign.name = "Unknown" ∧
      defaultSign.motion_type = "static" ∧ defaultSign.body_region = "neutral" ∧
      defaultSign.facial_expression = "question" := by
  refine ⟨?_, rfl, rfl, rfl, rfl⟩
  unfold getSign
  rw [h]
  rfl

/-- C7 witness at the absent token `zzz`. -/
theorem getSign_fallback_witness :
    getSign "zzz" = defaultSign ∧ defaultSign.name = "Unknown" ∧
      defaultSign.motion_type = "static" ∧ defaultSign.body_region = "neutral" ∧
      defaultSign.facial_expression = "question" :=
  getSign_fallback "zzz" (by decide)

/-- C9: the empty input yields an empty sign list from the normalizer, and
synthesizing the empty list yields no frames, no schedule and zero total
duration. -/
theorem empty_input_empty_animation :
    (process "").isl_signs = [] ∧ (generateAnimationSequence []).frames = []
    ∧ (generateAnimationSequence []).schedule = []
    ∧ (generateAnimationSequence []).total_duration = 0 :=
  ⟨by decide, rfl, rfl, rfl⟩



/-! ## Claim theorems (C2, C8, C4) -/


lemma mapToSignsLoop_cons_some (acc : List String) (tok : String)
    (rest : List String) (sg : String)
    (hsg : wordToSign.lookup tok = some sg) :
    mapToSignsLoop acc (tok :: rest)
      = if ¬ acc.contains sg || shouldRepeat sg then
          mapToSignsLoop (acc ++ [sg]) rest
        else mapToSignsLoop acc rest := by
  simp only [mapToSignsLoop, hsg]

lemma count_append_singleton_ne (acc : List String) (sg sign : String)
    (h : sg ≠ sign) : (acc ++ [sg]).count sign = acc.count sign := by
  simp [List.count_append, List.count_singleton', h, Ne.symm h]

lemma mapToSignsLoop_count_nonrepeat (sign : String)
    (hnr : ¬ shouldRepeat sign = true) :
    ∀ (tokens : List String) (acc : List String),
      (∀ tok ∈ tokens, (wordToSign.lookup tok).isSome) →
      (mapToSignsLoop acc tokens).count sign ≤ max (acc.count sign) 1 := by
  intro tokens
  induction tokens with
  | nil =>
    intro acc _
    simp only [mapToSignsLoop]
    exact le_max_left _ _
  | cons tok rest ih =>
    intro acc hall
    have hsome := hall tok (List.mem_cons_self tok rest)
    obtain ⟨sg, hsg⟩ := Option.isSome_iff_exists.mp hsome
    have hrest : ∀ t ∈ rest, (wordToSign.lookup t).isSome :=
      fun t ht => hall t (List.mem_cons_of_mem tok ht)
    rw [mapToSignsLoop_cons_some acc tok rest sg hsg]
    split_ifs with hcond
    · rw [Bool.or_eq_true] at hcond
      by_cases heq : sg = sign
      · subst heq
        rcases hcond with hnc | hrep
        · rw [decide_eq_true_eq] at hnc
          have hnotmem : sg ∉ acc := fun hmem => hnc (by simpa using hmem)
          have hzero : acc.count sg = 0 := List.count_eq_zero.mpr hnotmem
          calc (mapToSignsLoop (acc ++ [sg]) rest).count sg
              ≤ max ((acc ++ [sg]).count sg) 1 := ih (acc ++ [sg]) hrest
            _ ≤ max (acc.count sg) 1 := by
                simp [List.count_append, hzero]
        · exact absurd hrep hnr
      · calc (mapToSignsLoop (acc ++ [sg]) rest).count sign
            ≤ max ((acc ++ [sg]).count sign) 1 := ih (acc ++ [sg]) hrest
          _ ≤ max (acc.count sign) 1 := by
              rw [count_append_singleton_ne acc sg sign heq]
    · exact ih acc hrest

lemma mapToSignsLoop_count_repeat (sign : String)
    (hr : shouldRepeat sign = true) :
    ∀ (tokens : List String) (acc : List String),
      (∀ tok ∈ tokens, (wordToSign.lookup tok).isSome) →
      (mapToSignsLoop acc tokens).count sign
        = acc.count sign
          + (tokens.filter fun tok => wordToSign.lookup tok = some sign).length := by
  intro tokens
  induction tokens with
  | nil =>
    intro acc _
    simp [mapToSignsLoop]
  | cons tok rest ih =>
    intro acc hall
    have hsome := hall tok (List.mem_cons_self tok rest)
    obtain ⟨sg, hsg⟩ := Option.isSome_iff_exists.mp hsome
    have hrest : ∀ t ∈ rest, (wordToSign.lookup t).isSome :=
      fun t ht => hall t (List.mem_cons_of_mem tok ht)
    rw [mapToSignsLoop_cons_some acc tok rest sg hsg]
    by_cases heq : sg = sign
    · subst heq
      rw [if_pos (by rw [hr, Bool.or_true])]
      rw [ih (acc ++ [sg]) hrest]
      have hfil : (List.filter (fun tok => wordToSign.lookup tok = some sg)
          (tok :: rest)).length
          = ((List.filter (fun tok => wordToSign.lookup tok = some sg)
              rest)).length + 1 := by
        rw [List.filter_cons]
        simp [hsg]
      rw [hfil]
      have hcnt : (acc ++ [sg]).count sg = acc.count sg + 1 := by
        simp [List.count_append]
      rw [hcnt]
      ring
    · have hfil : (List.filter (fun tok => wordToSign.lookup tok = some sign)
          (tok :: rest)).length
          = (List.filter (fun tok => wordToSign.lookup tok = some sign)
              rest).length := by
        rw [List.filter_cons]
        have : ¬ (wordToSign.lookup tok = some sign) := by
          rw [hsg]
          intro hcon
          exact heq (Option.some_inj.mp hcon)
        simp [this]
      split_ifs with hcond
      · rw [ih (acc ++ [sg]) hrest, hfil,
          count_append_singleton_ne acc sg sign heq]
      · rw [ih acc hrest, hfil]

/-- C2 counterexample: both occurrences of `cat` map to `Cat`, yet the
emitted list contains `Cat` only once — the code deduplicates non-pronoun
signs globally, contrary to the claim. -/
theorem mapToSigns_dedup_counterexample :
    mapToSigns ["cat", "cat"] = ["Cat"]
    ∧ ¬ (mapToSigns ["cat", "cat"]).count "Cat" = 2 := by decide

/-- C2 amended: for surviving tokens that all have vocabulary mappings, a
non-pronoun sign is emitted only on its first occurrence (global
deduplication within the call), while a pronoun-class sign
(I/You/He/She/It) is emitted once per occurrence. -/
theorem mapToSigns_global_dedup (tokens : List String)
    (hall : ∀ tok ∈ tokens, (wordToSign.lookup tok).isSome) :
    (∀ sign, ¬ shouldRepeat sign = true →
      (mapToSigns tokens).count sign ≤ 1)
    ∧ (∀ sign, shouldRepeat sign = true →
        (mapToSigns tokens).count sign
          = (tokens.filter fun tok => wordToSign.lookup tok = some sign).length) := by
  constructor
  · intro sign hnr
    have h := mapToSignsLoop_count_nonrepeat sign hnr tokens [] hall
    simpa [mapToSigns] using h
  · intro sign hr
    have h := mapToSignsLoop_count_repeat sign hr tokens [] hall
    simpa [mapToSigns] using h

/-- C2 amended, witness: `cat` and `kitten` both map to `Cat`, which is
emitted once; the pronoun `i` is emitted at each of its two occurrences. -/
theorem mapToSigns_global_dedup_witness :
    (mapToSigns ["cat", "kitten", "i", "i"]).count "Cat" ≤ 1
    ∧ (mapToSigns ["cat", "kitten", "i", "i"]).count "I"
        = (["cat", "kitten", "i", "i"].filter
            fun tok => wordToSign.lookup tok = some "I").length := by
  have h := mapToSigns_global_dedup ["cat", "kitten", "i", "i"] (by decide)
  exact ⟨h.1 "Cat" (by decide), h.2 "I" (by decide)⟩

/-- C8: a surviving token with no vocabulary mapping is fingerspelled when
longer than 2 characters (one uppercased letter-sign per character that is
in the vocabulary, others silently skipped) and dropped otherwise. -/
theorem unmapped_token_fingerspelled :
    (∀ (acc : List String) (token : String) (rest : List String),
      wordToSign.lookup token = none →
      mapToSignsLoop acc (token :: rest)
        = mapToSignsLoop
            (acc ++ if 2 < token.length then fingerspell token else []) rest)
    ∧ fingerspell "xyz" = ["X", "Y", "Z"]
    ∧ mapToSigns ["xyz"] = ["X", "Y", "Z"]
    ∧ mapToSigns ["ab"] = []
    ∧ mapToSigns ["a_b"] = ["A", "B"] := by
  refine ⟨?_, by decide, by decide, by decide, by decide⟩
  intro acc token rest h
  simp only [mapToSignsLoop, h]
  by_cases h2 : 2 < token.length
  · simp [h2]
  · simp [h2]

/-- C8 witness at the unmapped token `xyz`. -/
theorem unmapped_token_fingerspelled_witness :
    mapToSignsLoop [] ("xyz" :: [])
      = mapToSignsLoop
          ([] ++ if 2 < "xyz".length then fingerspell "xyz" else []) [] :=
  unmapped_token_fingerspelled.1 [] "xyz" [] (by decide)

lemma generateSignFrames_length (n : String) (sd : SignData) (d t : ℤ) :
    (generateSignFrames n sd d t).length = signTotalFrames d := by
  unfold generateSignFrames
  rw [List.length_map, List.length_range]

/-- C4: for every sign the generated frame count is
`max(round(duration/1000*30), 5)` (arithmetic rounding agrees with the
code's truncation because every policy duration is a multiple of 100); a
1500 ms sign (e.g. `Mouse`) produces exactly 45 frames. -/
theorem frame_count_formula :
    (∀ (sname : String) (sd : SignData) (t : ℤ),
      (generateSignFrames sname sd (calculateSignDuration sd) t).length
        = max (round
            (((calculateSignDuration sd : ℤ) : ℚ) / 1000 * 30)).toNat 5)
    ∧ calculateSignDuration (getSign "Mouse") = 1500
    ∧ ∀ t : ℤ, (generateSignFrames "Mouse" (getSign "Mouse")
        (calculateSignDuration (getSign "Mouse")) t).length = 45 := by
  have hmouse : calculateSignDuration (getSign "Mouse") = 1500 := by decide
  have hmain : ∀ (sname : String) (sd : SignData) (t : ℤ),
      (generateSignFrames sname sd (calculateSignDuration sd) t).length
        = max (round
            (((calculateSignDuration sd : ℤ) : ℚ) / 1000 * 30)).toNat 5 := by
    intro sname sd t
    rw [generateSignFrames_length]
    obtain ⟨k, hk, hk8, _⟩ := calculateSignDuration_spec sd
    rw [hk, signTotalFrames_eq k hk8]
    have hq : ((100 * k : ℤ) : ℚ) / 1000 * 30 = ((3 * k : ℤ) : ℚ) := by
      push_cast
      ring
    rw [hq, round_intCast]
    omega
  refine ⟨hmain, hmouse, fun t => ?_⟩
  rw [generateSignFrames_length, hmouse]
  rw [show (1500 : ℤ) = 100 * 15 by norm_num,
    signTotalFrames_eq 15 (by norm_num)]
  decide



/-! ## Claim theorems (C3, C10) -/


/-- C3: total duration is the sum of per-sign durations plus (n-1)
transitions; the schedule is contiguous up to the 300 ms transition gap;
the last entry ends at the total duration; and the total duration equals
the last frame's timestamp plus one frame period, within one frame-period
tolerance. -/
theorem schedule_and_total_duration (tokens : List String) (h : tokens ≠ []) :
    (generateAnimationSequence tokens).total_duration
        = (tokens.map fun s => calculateSignDuration (getSign s)).sum
          + ((tokens.length : ℤ) - 1) * animTransitionDuration
    ∧ (∀ (i : ℕ) (hi : i < (generateAnimationSequence tokens).schedule.length - 1),
        ((generateAnimationSequence tokens).schedule.get ⟨i, by omega⟩).end_time
            + animTransitionDuration
          = ((generateAnimationSequence tokens).schedule.get
              ⟨i + 1, by omega⟩).start_time)
    ∧ ((generateAnimationSequence tokens).schedule.getLast?.map fun e => e.end_time)
        = some (generateAnimationSequence tokens).total_duration
    ∧ ∃ ts : ℚ,
        ((generateAnimationSequence tokens).frames.map fun fr => fr.timestamp).getLast?
          = some ts
        ∧ |((generateAnimationSequence tokens).total_duration : ℚ) - (ts + 1000 / 30)|
            ≤ 1000 / 30 := by
  obtain ⟨s1, s2, s3, s4, s5, s6, s7, s8⟩ := genLoop_spec tokens 0 0 h
  refine ⟨by simpa using s1, ?_, s4, ?_⟩
  · intro i hi
    exact List.chain'_iff_get.mp s5 i hi
  · refine ⟨((genLoop tokens 0 0).2.2 : ℚ) - 1000 / 30, s7, ?_⟩
    have : ((generateAnimationSequence tokens).total_duration : ℚ)
        = ((genLoop tokens 0 0).2.2 : ℚ) := rfl
    rw [this]
    norm_num

/-- C3 witness at the two-sign sequence `Hello`, `Cat`. -/
theorem schedule_and_total_duration_witness :
    (generateAnimationSequence ["Hello", "Cat"]).total_duration
        = (["Hello", "Cat"].map fun s => calculateSignDuration (getSign s)).sum
          + (((["Hello", "Cat"] : List String).length : ℤ) - 1)
              * animTransitionDuration
    ∧ ((generateAnimationSequence ["Hello", "Cat"]).schedule.getLast?.map
          fun e => e.end_time)
        = some (generateAnimationSequence ["Hello", "Cat"]).total_duration := by
  have h := schedule_and_total_duration ["Hello", "Cat"] (by decide)
  exact ⟨h.1, h.2.2.1⟩

/-- C10: frame timestamps are strictly increasing across the whole
generated frame list; within one sign block and within one transition
block consecutive timestamps differ by exactly one frame period
(1000/30 ms). -/
theorem timestamps_strictly_increasing (tokens : List String) (h : tokens ≠ []) :
    List.Chain' (· < ·)
      ((generateAnimationSequence tokens).frames.map fun fr => fr.timestamp)
    ∧ (∀ (sname : String) (sd : SignData) (d t : ℤ),
        List.Chain' (fun a b => b = a + 1000 / 30)
          ((generateSignFrames sname sd d t).map fun fr => fr.timestamp))
    ∧ ∀ (a b : SignData) (t : ℤ),
        List.Chain' (fun x y => y = x + 1000 / 30)
          ((generateTransitionFrames a b t).map fun fr => fr.timestamp) := by
  obtain ⟨_, _, _, _, _, _, _, s8⟩ := genLoop_spec tokens 0 0 h
  refine ⟨s8, ?_, ?_⟩
  · intro sname sd d t
    rw [generateSignFrames_map_timestamp]
    exact tsChain_step _ _
  · intro a b t
    rw [generateTransitionFrames_map_timestamp]
    exact tsChain_step _ _

/-- C10 witness at the two-sign sequence `Hello`, `Cat`. -/
theorem timestamps_strictly_increasing_witness :
    List.Chain' (· < ·)
      ((generateAnimationSequence ["Hello", "Cat"]).frames.map
        fun fr => fr.timestamp) :=
  (timestamps_strictly_increasing ["Hello", "Cat"] (by decide)).1



/-! ## Claim theorems (C1) -/


lemma range_map_getD {α : Type} (nn : ℕ) (g : ℕ → α) (i : ℕ) (d : α)
    (hi : i < nn) : ((List.range nn).map g).getD i d = g i := by
  rw [List.getD_eq_getElem?_getD, List.getElem?_map, List.getElem?_range hi]
  rfl

lemma generateSignFrames_getD_progress (n : String) (sd : SignData)
    (d t : ℤ) (i : ℕ) (hi : i < signTotalFrames d) :
    ((generateSignFrames n sd d t).getD i emptyFrame).progress
      = easeInOutCubic
          ((i : ℚ) / ((max (signTotalFrames d - 1) 1 : ℕ) : ℚ)) := by
  unfold generateSignFrames
  rw [range_map_getD _ _ _ _ hi]

lemma generateSignFrames_getD_right_hand (n : String) (sd : SignData)
    (d t : ℤ) (i : ℕ) (hi : i < signTotalFrames d) :
    ((generateSignFrames n sd d t).getD i emptyFrame).right_hand
      = (((motionPatterns.lookup sd.motion_type).getD interpolateStatic)
          (if sd.keyframes.isEmpty then
            [⟨0, createBaseHand 0.5 0.5, none⟩] else sd.keyframes)
          (easeInOutCubic
            ((i : ℚ) / ((max (signTotalFrames d - 1) 1 : ℕ) : ℚ))) sd).1 := by
  unfold generateSignFrames
  rw [range_map_getD _ _ _ _ hi]



/-- C1 (counterexample): for the two-keyframe wave sign `Hello`
(duration 2100 ms, 63 frames), the final frame (index 62) has eased
progress exactly 1, yet its right-hand pose differs from the pose the
specification predicts (wave deformation layered on top of the
keyframe-interpolated base pose at progress 1): the code's
`_interpolate_wave` reads only `keyframes[0]` and never interpolates. -/
theorem wave_layering_counterexample :
    ((generateSignFrames "Hello" (getSign "Hello")
        (calculateSignDuration (getSign "Hello")) 0).getD 62
        emptyFrame).progress = 1
    ∧ ((generateSignFrames "Hello" (getSign "Hello")
        (calculateSignDuration (getSign "Hello")) 0).getD 62
        emptyFrame).right_hand
      ≠ specLayeredWavePose (getSign "Hello").keyframes 1 := by
  have hd : calculateSignDuration (getSign "Hello") = 100 * 21 := by decide
  have h63 : signTotalFrames (calculateSignDuration (getSign "Hello")) = 63 := by
    rw [hd, signTotalFrames_eq 21 (by norm_num)]; decide
  have hi : (62 : ℕ) < signTotalFrames (calculateSignDuration (getSign "Hello")) := by
    rw [h63]; norm_num
  have heased : easeInOutCubic (((62 : ℕ) : ℚ) /
      ((max (signTotalFrames (calculateSignDuration (getSign "Hello")) - 1) 1 : ℕ) : ℚ)) = 1 := by
    rw [h63]
    norm_num [easeInOutCubic]
  have hprog : ((generateSignFrames "Hello" (getSign "Hello")
      (calculateSignDuration (getSign "Hello")) 0).getD 62
      emptyFrame).progress = 1 := by
    rw [generateSignFrames_getD_progress _ _ _ _ _ hi]
    exact heased
  refine ⟨hprog, ?_⟩
  rw [generateSignFrames_getD_right_hand _ _ _ _ _ hi]
  have hmot : (getSign "Hello").motion_type = "wave" := by decide
  have hkf : (getSign "Hello").keyframes.isEmpty = false := by decide
  rw [hmot, heased]
  have hlook : (motionPatterns.lookup "wave").getD interpolateStatic
      = interpolateWave := rfl
  rw [hlook, if_neg (by simp [hkf])]
  intro heq
  have hx : ((interpolateWave (getSign "Hello").keyframes 1
        (getSign "Hello")).1.head?.map fun a => a.x)
      = ((specLayeredWavePose (getSign "Hello").keyframes 1).head?.map
          fun a => a.x) := by rw [heq]
  have hL : ((interpolateWave (getSign "Hello").keyframes 1
        (getSign "Hello")).1.head?.map fun a => a.x)
      = some (((0.6 : ℚ) : ℝ)
          + Real.sin (((1 : ℚ) : ℝ) * Real.pi * 4) * 0.05) := rfl
  have hR : ((specLayeredWavePose (getSign "Hello").keyframes 1).head?.map
        fun a => a.x)
      = some (((0.6 + ((0.6 + 0.08) - 0.6) * 1 : ℚ) : ℝ)
          + Real.sin (((1 : ℚ) : ℝ) * Real.pi * 4) * 0.05) := rfl
  rw [hL, hR] at hx
  have h2 := Option.some.inj hx
  have h3 : ((0.6 : ℚ) : ℝ) = ((0.6 + ((0.6 + 0.08) - 0.6) * 1 : ℚ) : ℝ) := by
    linarith
  have h4 : (0.6 : ℚ) = 0.6 + ((0.6 + 0.08) - 0.6) * 1 := by exact_mod_cast h3
  norm_num at h4

/-- C1 (amended): for every sign whose motion type is `wave`, every
generated frame's right-hand pose is the wave deformation applied
directly to the first keyframe's pose — the keyframe interpolation to
the second keyframe is bypassed, not layered under the deformation. -/
theorem wave_deformation_replaces_interpolation
    (sname : String) (sd : SignData) (d t : ℤ) (i : ℕ)
    (hmot : sd.motion_type = "wave") (hi : i < signTotalFrames d) :
    ((generateSignFrames sname sd d t).getD i emptyFrame).right_hand
      = (castPose (headKf (if sd.keyframes.isEmpty then
            [⟨0, createBaseHand 0.5 0.5, none⟩] else
            sd.keyframes)).right_hand).map
          (fun a => ⟨a.x
            + Real.sin
              (((((generateSignFrames sname sd d t).getD i
                  emptyFrame).progress : ℚ) : ℝ) * Real.pi * 4) * 0.05,
            a.y, a.z⟩) := by
  rw [generateSignFrames_getD_right_hand sname sd d t i hi,
      generateSignFrames_getD_progress sname sd d t i hi, hmot]
  rfl

/-- C1 witness: the amended theorem evaluated at the `Hello` sign,
duration 2100 ms, frame 0. -/
theorem wave_deformation_replaces_interpolation_witness :
    ((generateSignFrames "Hello" (getSign "Hello") 2100 0).getD 0
        emptyFrame).right_hand
      = (castPose (headKf (if (getSign "Hello").keyframes.isEmpty then
            [⟨0, createBaseHand 0.5 0.5, none⟩] else
            (getSign "Hello").keyframes)).right_hand).map
          (fun a => ⟨a.x
            + Real.sin
              (((((generateSignFrames "Hello" (getSign "Hello") 2100 0).getD 0
                  emptyFrame).progress : ℚ) : ℝ) * Real.pi * 4) * 0.05,
            a.y, a.z⟩) :=
  wave_deformation_replaces_interpolation "Hello" (getSign "Hello") 2100 0 0
    (by decide)
    (by rw [show (2100 : ℤ) = 100 * 21 by norm_num,
          signTotalFrames_eq 21 (by norm_num)]; decide)


end ISL
